import Mathlib

/-!
# Geofence alerting of the tourist-safety simulation

Shallow embedding of the alert logic in `src/pages/simulationProvider.jsx`,
`src/pages/touristAlert.jsx` and of the `getDistance` helper shared by the
simulation pages.

JavaScript numbers are modelled by a linearly ordered type `α` for the
threshold comparisons (instantiated with `ℚ` for concrete runs) and by `ℝ` for
the trigonometry of `getDistance`; rounding errors of double-precision
arithmetic and `NaN` are outside this reading.  `Date.now()` is an input of
every execution of the effect.
-/

namespace Sih

/-! ## Data model -/

/-- Coordinate pair, the objects `{ lat, lng }` of `touristPath`. -/
structure LatLng (α : Type) where
  lat : α
  lng : α
deriving DecidableEq, Repr

/-- The `riskZone` object: a centre and two radii in metres. -/
structure RiskZone (α : Type) where
  name : String
  center : LatLng α
  warningRadius : α
  criticalRadius : α
deriving DecidableEq, Repr

/-- The alert objects built by the effects.  Only the critical alert of
`SimulationProvider` carries a `position`. -/
structure Alert (α : Type) where
  id : Nat
  type : String
  title : String
  message : String
  position : Option (LatLng α)
deriving DecidableEq, Repr

/-- The `tourist` state object. -/
structure Tourist (α : Type) where
  name : String
  position : LatLng α
deriving DecidableEq, Repr

/-- What one execution of the alert effect reads from outside the component
state: `Date.now()`, `touristPath[pathIndex]` and the value of
`getDistance(newPosition, riskZone.center)`. -/
structure Tick (α : Type) where
  now : Nat
  newPosition : LatLng α
  distance : α
deriving DecidableEq, Repr

/-- State of `SimulationProvider` touched by the alert effect: the `useState`
cells `tourist`, `touristAlerts`, `policeAlerts` and the two `useRef` flags. -/
structure ProviderState (α : Type) where
  tourist : Tourist α
  touristAlerts : List (Alert α)
  policeAlerts : List (Alert α)
  triggeredWarning : Bool
  triggeredCritical : Bool
deriving DecidableEq, Repr

/-- State of the `TouristAlert` component (it has no `policeAlerts`). -/
structure TouristAlertState (α : Type) where
  tourist : Tourist α
  touristAlerts : List (Alert α)
  triggeredWarning : Bool
  triggeredCritical : Bool
deriving DecidableEq, Repr

/-! ## The alert effects -/

section Effects

variable {α : Type} [LinearOrder α]

/-- The critical alert object of `SimulationProvider` (line 62). -/
def providerCriticalAlert (zone : RiskZone α) (t : Tick α) : Alert α :=
  { id := t.now
    type := "critical"
    title := "CRITICAL: High-Risk Zone"
    message := "You have entered a high-risk area: " ++ zone.name ++ "."
    position := some t.newPosition }

/-- The critical alert object of `TouristAlert` (line 75): no `position`. -/
def touristCriticalAlert (zone : RiskZone α) (t : Tick α) : Alert α :=
  { id := t.now
    type := "critical"
    title := "CRITICAL: High-Risk Zone"
    message := "You have entered a high-risk area: " ++ zone.name ++ "."
    position := none }

/-- The warning alert object, the same in both components. -/
def warningAlert (zone : RiskZone α) (t : Tick α) : Alert α :=
  { id := t.now
    type := "warning"
    title := "Warning: Approaching Risky Area"
    message := "You are near " ++ zone.name ++ ". Exercise caution."
    position := none }

/-- One execution of the second `useEffect` of `SimulationProvider`
(lines 52-70).  The result pairs the new state with the alerts created by this
execution. -/
def simulationEffect (zone : RiskZone α) (t : Tick α) (s : ProviderState α) :
    ProviderState α × List (Alert α) :=
  let s1 : ProviderState α := { s with tourist := { s.tourist with position := t.newPosition } }
  if t.distance ≤ zone.criticalRadius ∧ s1.triggeredCritical = false then
    let alert := providerCriticalAlert zone t
    ({ s1 with
        triggeredCritical := true
        touristAlerts := alert :: s1.touristAlerts
        policeAlerts := alert :: s1.policeAlerts }, [alert])
  else if t.distance ≤ zone.warningRadius ∧ s1.triggeredWarning = false then
    let alert := warningAlert zone t
    ({ s1 with
        triggeredWarning := true
        touristAlerts := alert :: s1.touristAlerts }, [alert])
  else
    (s1, [])

/-- One execution of the second `useEffect` of `TouristAlert` (lines 67-82). -/
def touristAlertEffect (zone : RiskZone α) (t : Tick α) (s : TouristAlertState α) :
    TouristAlertState α × List (Alert α) :=
  let s1 : TouristAlertState α := { s with tourist := { s.tourist with position := t.newPosition } }
  if t.distance ≤ zone.criticalRadius ∧ s1.triggeredCritical = false then
    let alert := touristCriticalAlert zone t
    ({ s1 with
        triggeredCritical := true
        touristAlerts := alert :: s1.touristAlerts }, [alert])
  else if t.distance ≤ zone.warningRadius ∧ s1.triggeredWarning = false then
    let alert := warningAlert zone t
    ({ s1 with
        triggeredWarning := true
        touristAlerts := alert :: s1.touristAlerts }, [alert])
  else
    (s1, [])

/-- State of `SimulationProvider` after processing the ticks in order. -/
def simulationRun (zone : RiskZone α) (s : ProviderState α) : List (Tick α) → ProviderState α
  | [] => s
  | t :: ts => simulationRun zone (simulationEffect zone t s).1 ts

/-- Alerts created at each tick, in processing order. -/
def simulationTrace (zone : RiskZone α) (s : ProviderState α) :
    List (Tick α) → List (List (Alert α))
  | [] => []
  | t :: ts => (simulationEffect zone t s).2 :: simulationTrace zone (simulationEffect zone t s).1 ts

/-- State of `TouristAlert` after processing the ticks in order. -/
def touristAlertRun (zone : RiskZone α) (s : TouristAlertState α) :
    List (Tick α) → TouristAlertState α
  | [] => s
  | t :: ts => touristAlertRun zone (touristAlertEffect zone t s).1 ts

/-- Alerts created by `TouristAlert` at each tick, in processing order. -/
def touristAlertTrace (zone : RiskZone α) (s : TouristAlertState α) :
    List (Tick α) → List (List (Alert α))
  | [] => []
  | t :: ts =>
    (touristAlertEffect zone t s).2 :: touristAlertTrace zone (touristAlertEffect zone t s).1 ts

/-- Number of alerts of the given `type` in a list of alerts. -/
def countType (ty : String) (as : List (Alert α)) : Nat :=
  as.countP (fun a => decide (a.type = ty))

/-- The alerts created while processing the ticks `start ≤ i < start + n` of a
trace. -/
def emittedDuring (tr : List (List (Alert α))) (start n : Nat) : List (Alert α) :=
  ((tr.drop start).take n).flatten

/-- An episode of a position sequence `pre ++ ep ++ post`: `ep` is a non-empty
maximal run of ticks whose distance is at most `warningRadius`. -/
def isEpisode (zone : RiskZone α) (pre ep post : List (Tick α)) : Bool :=
  !ep.isEmpty
    && ep.all (fun t => decide (t.distance ≤ zone.warningRadius))
    && pre.getLast?.all (fun t => decide (zone.warningRadius < t.distance))
    && post.head?.all (fun t => decide (zone.warningRadius < t.distance))

/-- Remaining number of warning alerts the flags still allow. -/
def warningBudget (triggeredWarning : Bool) : Nat :=
  if triggeredWarning then 0 else 1

/-- Remaining number of critical alerts the flags still allow. -/
def criticalBudget (triggeredCritical : Bool) : Nat :=
  if triggeredCritical then 0 else 1

end Effects

/-! ## Concrete data of the simulation -/

/-- The `riskZone` constant of `simulationProvider.jsx`. -/
def riskZone : RiskZone ℚ :=
  { name := "Redhills Market Area"
    center := { lat := 13.1780, lng := 80.1750 }
    warningRadius := 1000
    criticalRadius := 400 }

/-- Initial `SimulationProvider` state: `touristPath[0]`, empty alert lists,
both flags `false`. -/
def initialProviderState : ProviderState ℚ :=
  { tourist := { name := "Rohan Desai", position := { lat := 13.1850, lng := 80.1650 } }
    touristAlerts := []
    policeAlerts := []
    triggeredWarning := false
    triggeredCritical := false }

/-- Initial `TouristAlert` state. -/
def initialTouristAlertState : TouristAlertState ℚ :=
  { tourist := { name := "Rohan Desai", position := { lat := 13.1850, lng := 80.1650 } }
    touristAlerts := []
    triggeredWarning := false
    triggeredCritical := false }

/-- A tick at the given distance from the zone centre (the position and the
clock value do not influence which branch is taken). -/
def tickAt (d : ℚ) : Tick ℚ :=
  { now := 0, newPosition := { lat := 13.1850, lng := 80.1650 }, distance := d }


/-! ## Great-circle distance -/

/-- The function `Math.atan2(y, x)` on real numbers: the angle in `(-π, π]` of the
point `(x, y)`, with `atan2 0 0 = 0`. -/
noncomputable def atan2 (y x : ℝ) : ℝ :=
  Complex.arg ⟨x, y⟩

/-- The helper `getDistance` (haversine formula), identical in
`simulationProvider.jsx`, `touristAlert.jsx` and `policeAlert.jsx`, with
JavaScript numbers read as real numbers.  Rounding of double-precision
arithmetic is not part of this reading: where the source's `1 - a` rounds below
zero, `Math.sqrt` returns `NaN` in the program and this definition does not
show it. -/
noncomputable def getDistance (pos1 pos2 : LatLng ℝ) : ℝ :=
  let R : ℝ := 6371e3
  let φ1 := pos1.lat * Real.pi / 180
  let φ2 := pos2.lat * Real.pi / 180
  let Δφ := (pos2.lat - pos1.lat) * Real.pi / 180
  let Δl := (pos2.lng - pos1.lng) * Real.pi / 180
  let a := Real.sin (Δφ / 2) ^ 2 + Real.cos φ1 * Real.cos φ2 * Real.sin (Δl / 2) ^ 2
  let c := 2 * atan2 (Real.sqrt a) (Real.sqrt (1 - a))
  R * c

/-- The alert effect of `SimulationProvider` on a new position, with the
distance computed by `getDistance` as in line 58. -/
noncomputable def simulationEffectAt (zone : RiskZone ℝ) (now : Nat) (newPosition : LatLng ℝ)
    (s : ProviderState ℝ) : ProviderState ℝ × List (Alert ℝ) :=
  simulationEffect zone
    { now := now, newPosition := newPosition, distance := getDistance newPosition zone.center } s

/-- The alert effect of `TouristAlert` on a new position (line 71). -/
noncomputable def touristAlertEffectAt (zone : RiskZone ℝ) (now : Nat) (newPosition : LatLng ℝ)
    (s : TouristAlertState ℝ) : TouristAlertState ℝ × List (Alert ℝ) :=
  touristAlertEffect zone
    { now := now, newPosition := newPosition, distance := getDistance newPosition zone.center } s

/-- The intermediate `a` of `getDistance` (line 76), in exact real arithmetic;
the rounded value computed by the program can differ in the last place. -/
noncomputable def haversineA (pos1 pos2 : LatLng ℝ) : ℝ :=
  let φ1 := pos1.lat * Real.pi / 180
  let φ2 := pos2.lat * Real.pi / 180
  let Δφ := (pos2.lat - pos1.lat) * Real.pi / 180
  let Δl := (pos2.lng - pos1.lng) * Real.pi / 180
  Real.sin (Δφ / 2) ^ 2 + Real.cos φ1 * Real.cos φ2 * Real.sin (Δl / 2) ^ 2

/-! ## Tourist dashboard: safety score -/

/-- The `tourist` object of `TouristDashboard`, with the fields the page reads. -/
structure DashboardTourist (α : Type) where
  name : String
  touristId : String
  safetyScore : α
deriving DecidableEq, Repr

/-- The body `updateRes.data` of a response to `/api/locations/update`; the
field `policeAlert` is absent or an alert object. -/
structure LocationUpdateData (β : Type) where
  policeAlert : Option β
deriving DecidableEq, Repr

/-- The `setTourist` update of the `watchPosition` callback of
`touristDashboard.jsx` (lines 188-190) for a response body `data`, which may be
missing (`updateRes.data?.policeAlert`). -/
def onLocationUpdate {α β : Type} [LinearOrderedRing α]
    (data : Option (LocationUpdateData β)) (prev : DashboardTourist α) : DashboardTourist α :=
  if (data.bind (fun d => d.policeAlert)).isSome then
    { prev with safetyScore := max 0 (prev.safetyScore - 5) }
  else
    prev

/-- The tourist after handling the responses in order of arrival. -/
def onLocationUpdates {α β : Type} [LinearOrderedRing α]
    (prev : DashboardTourist α) (responses : List (Option (LocationUpdateData β))) :
    DashboardTourist α :=
  responses.foldl (fun t data => onLocationUpdate data t) prev

/-! ## Police dashboard: socket handlers -/

/-- An alert event received on the station socket, with the fields the
dashboard renders; `isPanic` is absent on the events as they arrive. -/
structure StationAlert where
  id : String
  touristName : String
  zoneName : String
  createdAt : String
  isPanic : Option Bool
deriving DecidableEq, Repr

/-- The object `{ ...alert, isPanic: true }` of the `panic-alert` handler
(line 76). -/
def panicEvent (alert : StationAlert) : StationAlert :=
  { alert with isPanic := some true }

/-- The `panic-alert` handler of `PoliceDashboard.jsx` (lines 73-78) as a
function on `criticalAlerts`. -/
def onPanicAlert (alert : StationAlert) (prev : List StationAlert) : List StationAlert :=
  panicEvent alert :: prev

/-- The `police-alert` handler (lines 67-70). -/
def onPoliceAlert (alert : StationAlert) (prev : List StationAlert) : List StationAlert :=
  alert :: prev

/-- The list `criticalAlerts` after a sequence of `panic-alert` events, handled
in order of arrival. -/
def onPanicAlerts (prev : List StationAlert) (events : List StationAlert) : List StationAlert :=
  events.foldl (fun acc alert => onPanicAlert alert acc) prev

/-- The GeoJSON point stored as `location` of a tourist: `coordinates` is
`[lng, lat]`. -/
structure GeoPoint where
  coordinates : List ℚ
deriving DecidableEq, Repr

/-- An element of the `tourists` list of the police dashboard, and the payload
of a `tourist-location-update` event. -/
structure StationTourist where
  id : String
  name : String
  touristId : String
  safetyScore : ℚ
  location : GeoPoint
  lastUpdated : String
deriving DecidableEq, Repr

/-- The `tourist-location-update` handler of `PoliceDashboard.jsx`
(lines 81-90) as a function on `tourists`. -/
def onTouristLocationUpdate (updatedTourist : StationTourist) (prevTourists : List StationTourist) :
    List StationTourist :=
  match prevTourists.find? (fun t => decide (t.id = updatedTourist.id)) with
  | some _ =>
    prevTourists.map (fun t =>
      if t.id = updatedTourist.id then
        { t with location := updatedTourist.location, lastUpdated := updatedTourist.lastUpdated }
      else t)
  | none => prevTourists ++ [updatedTourist]

/-! ## Tourist registration form -/

/-- The `formData` state of `TouristRegistration`.  The two date fields come
from `input type="date"`: `none` is the empty string, `some t` a date whose
`new Date(...)` timestamp is `t`. -/
structure FormData where
  fullName : String
  passport : String
  arrivalDate : Option Int
  departureDate : Option Int
  emergencyContact : String
  consent : Bool
deriving DecidableEq, Repr

/-- The code points removed by `String.prototype.trim`: ECMAScript `WhiteSpace`
and `LineTerminator`. -/
def isJsWhiteSpace (c : Char) : Bool :=
  let n := c.toNat
  n == 0x09 || n == 0x0A || n == 0x0B || n == 0x0C || n == 0x0D || n == 0x20 || n == 0xA0
    || n == 0x1680 || (0x2000 ≤ n && n ≤ 0x200A) || n == 0x2028 || n == 0x2029
    || n == 0x202F || n == 0x205F || n == 0x3000 || n == 0xFEFF

/-- The method `trim()` on the characters of a string. -/
def jsTrim (s : String) : String :=
  String.mk (((s.toList.dropWhile isJsWhiteSpace).reverse.dropWhile isJsWhiteSpace).reverse)

/-- A JavaScript object with string values, as its list of own keys in
insertion order with their values. -/
abbrev ErrorsObject := List (String × String)

/-- Assignment `obj[key] = value`. -/
def setKey (obj : ErrorsObject) (key value : String) : ErrorsObject :=
  if obj.any (fun kv => kv.1 == key) then
    obj.map (fun kv => if kv.1 == key then (key, value) else kv)
  else
    obj ++ [(key, value)]

/-- The function `Object.keys`. -/
def objectKeys (obj : ErrorsObject) : List String :=
  obj.map (fun kv => kv.1)

/-- Property read `obj[key]`. -/
def getKey (obj : ErrorsObject) (key : String) : Option String :=
  (obj.find? (fun kv => kv.1 == key)).map (fun kv => kv.2)

/-- The function `validateForm` of `touristRegistration.jsx` (lines 41-55): the
object passed to `setErrors` and the returned boolean. -/
def validateForm (formData : FormData) : ErrorsObject × Bool :=
  let e0 : ErrorsObject := []
  let e1 := if jsTrim formData.fullName = "" then setKey e0 "fullName" "Full Name is required."
    else e0
  let e2 := if jsTrim formData.passport = "" then setKey e1 "passport" "ID Number is required."
    else e1
  let e3 := if formData.arrivalDate = none then
      setKey e2 "arrivalDate" "Arrival Date is required."
    else e2
  let e4 := if formData.departureDate = none then
      setKey e3 "departureDate" "Departure Date is required."
    else e3
  let e5 := match formData.arrivalDate, formData.departureDate with
    | some arrival, some departure =>
      if departure ≤ arrival then
        setKey e4 "departureDate" "Departure date must be after arrival date."
      else e4
    | _, _ => e4
  let e6 := if jsTrim formData.emergencyContact = "" then
      setKey e5 "emergencyContact" "Emergency Contact is required."
    else e5
  let e7 := if formData.consent = false then
      setKey e6 "consent" "You must agree to the terms to proceed."
    else e6
  (e7, (objectKeys e7).length == 0)

/-! ## The inlined simulation pages -/

/-- The entries prepended to a list by an update `prev => [x, ...prev]`: the
part of `after` in front of `before`. -/
def prepended {β : Type} (before after : List β) : List β :=
  after.take (after.length - before.length)

/-- The `riskZone` constant of `policeAlert.jsx` (lines 39-43): it has no
`warningRadius`. -/
structure PoliceRiskZone (α : Type) where
  name : String
  center : LatLng α
  criticalRadius : α
deriving DecidableEq, Repr

/-- State of the `PoliceAlert` component. -/
structure PoliceAlertState (α : Type) where
  tourist : Tourist α
  policeAlerts : List (Alert α)
  triggeredCritical : Bool
deriving DecidableEq, Repr

section Inlined

variable {α : Type} [LinearOrder α]

/-- What `SimulationProvider` prepends to `touristAlerts` in one execution. -/
def simulationTouristAdded (zone : RiskZone α) (t : Tick α) (s : ProviderState α) :
    List (Alert α) :=
  prepended s.touristAlerts (simulationEffect zone t s).1.touristAlerts

/-- What `SimulationProvider` prepends to `policeAlerts` in one execution. -/
def simulationPoliceAdded (zone : RiskZone α) (t : Tick α) (s : ProviderState α) :
    List (Alert α) :=
  prepended s.policeAlerts (simulationEffect zone t s).1.policeAlerts

/-- Per tick, what `SimulationProvider` prepends to `touristAlerts`. -/
def simulationTouristAddedTrace (zone : RiskZone α) (s : ProviderState α) :
    List (Tick α) → List (List (Alert α))
  | [] => []
  | t :: ts =>
    simulationTouristAdded zone t s
      :: simulationTouristAddedTrace zone (simulationEffect zone t s).1 ts

/-- Per tick, what `SimulationProvider` prepends to `policeAlerts`. -/
def simulationPoliceAddedTrace (zone : RiskZone α) (s : ProviderState α) :
    List (Tick α) → List (List (Alert α))
  | [] => []
  | t :: ts =>
    simulationPoliceAdded zone t s
      :: simulationPoliceAddedTrace zone (simulationEffect zone t s).1 ts

/-- The critical alert object of `PoliceAlert` (line 84). -/
def policeCriticalAlert (zone : PoliceRiskZone α) (t : Tick α) : Alert α :=
  { id := t.now
    type := "critical"
    title := "CRITICAL: High-Risk Zone"
    message := "Tourist entered a high-risk area: " ++ zone.name ++ "."
    position := some t.newPosition }

/-- One execution of the second `useEffect` of `PoliceAlert` (lines 76-87). -/
def policeAlertEffect (zone : PoliceRiskZone α) (t : Tick α) (s : PoliceAlertState α) :
    PoliceAlertState α × List (Alert α) :=
  let s1 : PoliceAlertState α := { s with tourist := { s.tourist with position := t.newPosition } }
  if t.distance ≤ zone.criticalRadius ∧ s1.triggeredCritical = false then
    let alert := policeCriticalAlert zone t
    ({ s1 with
        triggeredCritical := true
        policeAlerts := alert :: s1.policeAlerts }, [alert])
  else
    (s1, [])

/-- Alerts created by `PoliceAlert` at each tick, in processing order. -/
def policeAlertTrace (zone : PoliceRiskZone α) (s : PoliceAlertState α) :
    List (Tick α) → List (List (Alert α))
  | [] => []
  | t :: ts =>
    (policeAlertEffect zone t s).2 :: policeAlertTrace zone (policeAlertEffect zone t s).1 ts

/-- Two alerts with the same `type`, `title` and `message`. -/
def sameContent (a b : Alert α) : Prop :=
  a.type = b.type ∧ a.title = b.title ∧ a.message = b.message

instance (a b : Alert α) : Decidable (sameContent a b) :=
  inferInstanceAs (Decidable (a.type = b.type ∧ a.title = b.title ∧ a.message = b.message))

/-- Two critical alerts for the same position. -/
def sameCritical (a b : Alert α) : Prop :=
  a.type = "critical" ∧ b.type = "critical" ∧ a.title = b.title ∧ a.position = b.position

end Inlined

/-- Coordinates read as real numbers. -/
noncomputable def LatLng.toReal (p : LatLng ℚ) : LatLng ℝ :=
  { lat := (p.lat : ℝ), lng := (p.lng : ℝ) }

/-- A risk zone read over the real numbers. -/
noncomputable def RiskZone.toReal (z : RiskZone ℚ) : RiskZone ℝ :=
  { name := z.name
    center := z.center.toReal
    warningRadius := (z.warningRadius : ℝ)
    criticalRadius := (z.criticalRadius : ℝ) }

/-- The risk zone of the police page read over the real numbers. -/
noncomputable def PoliceRiskZone.toReal (z : PoliceRiskZone ℚ) : PoliceRiskZone ℝ :=
  { name := z.name
    center := z.center.toReal
    criticalRadius := (z.criticalRadius : ℝ) }

/-- The `touristPath` constant of `simulationProvider.jsx` (lines 4-10). -/
def touristPath : List (LatLng ℚ) :=
  [ { lat := 13.1850, lng := 80.1650 }, { lat := 13.1840, lng := 80.1665 },
    { lat := 13.1830, lng := 80.1680 }, { lat := 13.1820, lng := 80.1695 },
    { lat := 13.1810, lng := 80.1710 }, { lat := 13.1800, lng := 80.1725 },
    { lat := 13.1790, lng := 80.1740 }, { lat := 13.1785, lng := 80.1745 },
    { lat := 13.1780, lng := 80.1750 }, { lat := 13.1775, lng := 80.1755 } ]

/-- One execution of the alert effect for all three pages at once: the path
index, which is below `touristPath.length = 10`, and the value of `Date.now()`
read by each page. -/
structure WalkStep where
  pathIndex : Fin 10
  providerNow : Nat
  touristAlertNow : Nat
  policeAlertNow : Nat
deriving DecidableEq, Repr

/-- The input of the `SimulationProvider` effect at a path index: the position
`touristPath[pathIndex]` and its `getDistance` to `riskZone.center`. -/
noncomputable def providerTick (st : WalkStep) : Tick ℝ :=
  { now := st.providerNow
    newPosition := (touristPath.get (Fin.cast (by rfl) st.pathIndex)).toReal
    distance :=
      getDistance (touristPath.get (Fin.cast (by rfl) st.pathIndex)).toReal
        riskZone.toReal.center }

/-- Initial state of `SimulationProvider` (`useState` and `useRef` initial
values), over the real numbers. -/
noncomputable def providerInitialState : ProviderState ℝ :=
  { tourist :=
      { name := "Rohan Desai"
        position := (touristPath.get (Fin.cast (by rfl) (0 : Fin 10))).toReal }
    touristAlerts := []
    policeAlerts := []
    triggeredWarning := false
    triggeredCritical := false }

namespace TouristAlert

/-- The `touristPath` constant of `touristAlert.jsx` (lines 23-29). -/
def touristPath : List (LatLng ℚ) :=
  [ { lat := 13.1850, lng := 80.1650 }, { lat := 13.1840, lng := 80.1665 },
    { lat := 13.1830, lng := 80.1680 }, { lat := 13.1820, lng := 80.1695 },
    { lat := 13.1810, lng := 80.1710 }, { lat := 13.1800, lng := 80.1725 },
    { lat := 13.1790, lng := 80.1740 }, { lat := 13.1785, lng := 80.1745 },
    { lat := 13.1780, lng := 80.1750 }, { lat := 13.1775, lng := 80.1755 } ]

/-- The `riskZone` constant of `touristAlert.jsx` (lines 31-36). -/
def riskZone : RiskZone ℚ :=
  { name := "Redhills Market Area"
    center := { lat := 13.1780, lng := 80.1750 }
    warningRadius := 1000
    criticalRadius := 400 }

/-- The `getDistance` of `touristAlert.jsx` (lines 38-45). -/
noncomputable def getDistance (pos1 pos2 : LatLng ℝ) : ℝ :=
  let R : ℝ := 6371e3
  let φ1 := pos1.lat * Real.pi / 180
  let φ2 := pos2.lat * Real.pi / 180
  let Δφ := (pos2.lat - pos1.lat) * Real.pi / 180
  let Δl := (pos2.lng - pos1.lng) * Real.pi / 180
  let a := Real.sin (Δφ / 2) ^ 2 + Real.cos φ1 * Real.cos φ2 * Real.sin (Δl / 2) ^ 2
  let c := 2 * atan2 (Real.sqrt a) (Real.sqrt (1 - a))
  R * c

/-- The input of the `TouristAlert` effect at a path index. -/
noncomputable def tick (st : WalkStep) : Tick ℝ :=
  { now := st.touristAlertNow
    newPosition := (touristPath.get (Fin.cast (by rfl) st.pathIndex)).toReal
    distance :=
      getDistance (touristPath.get (Fin.cast (by rfl) st.pathIndex)).toReal
        riskZone.toReal.center }

/-- Initial state of `TouristAlert`. -/
noncomputable def initialState : TouristAlertState ℝ :=
  { tourist :=
      { name := "Rohan Desai"
        position := (touristPath.get (Fin.cast (by rfl) (0 : Fin 10))).toReal }
    touristAlerts := []
    triggeredWarning := false
    triggeredCritical := false }

end TouristAlert

namespace PoliceAlert

/-- The `touristPath` constant of `policeAlert.jsx` (lines 31-37). -/
def touristPath : List (LatLng ℚ) :=
  [ { lat := 13.1850, lng := 80.1650 }, { lat := 13.1840, lng := 80.1665 },
    { lat := 13.1830, lng := 80.1680 }, { lat := 13.1820, lng := 80.1695 },
    { lat := 13.1810, lng := 80.1710 }, { lat := 13.1800, lng := 80.1725 },
    { lat := 13.1790, lng := 80.1740 }, { lat := 13.1785, lng := 80.1745 },
    { lat := 13.1780, lng := 80.1750 }, { lat := 13.1775, lng := 80.1755 } ]

/-- The `riskZone` constant of `policeAlert.jsx` (lines 39-43). -/
def riskZone : PoliceRiskZone ℚ :=
  { name := "Redhills Market Area"
    center := { lat := 13.1780, lng := 80.1750 }
    criticalRadius := 400 }

/-- The `getDistance` of `policeAlert.jsx` (lines 50-57). -/
noncomputable def getDistance (pos1 pos2 : LatLng ℝ) : ℝ :=
  let R : ℝ := 6371e3
  let φ1 := pos1.lat * Real.pi / 180
  let φ2 := pos2.lat * Real.pi / 180
  let Δφ := (pos2.lat - pos1.lat) * Real.pi / 180
  let Δl := (pos2.lng - pos1.lng) * Real.pi / 180
  let a := Real.sin (Δφ / 2) ^ 2 + Real.cos φ1 * Real.cos φ2 * Real.sin (Δl / 2) ^ 2
  let c := 2 * atan2 (Real.sqrt a) (Real.sqrt (1 - a))
  R * c

/-- The input of the `PoliceAlert` effect at a path index. -/
noncomputable def tick (st : WalkStep) : Tick ℝ :=
  { now := st.policeAlertNow
    newPosition := (touristPath.get (Fin.cast (by rfl) st.pathIndex)).toReal
    distance :=
      getDistance (touristPath.get (Fin.cast (by rfl) st.pathIndex)).toReal
        riskZone.toReal.center }

/-- Initial state of `PoliceAlert`. -/
noncomputable def initialState : PoliceAlertState ℝ :=
  { tourist :=
      { name := "Rohan Desai"
        position := (touristPath.get (Fin.cast (by rfl) (0 : Fin 10))).toReal }
    policeAlerts := []
    triggeredCritical := false }

end PoliceAlert

/-- The position of the range check: the zone centre shifted by 360 degrees of
longitude. -/
def shiftedCentre : LatLng ℚ :=
  { lat := 13.1780, lng := 440.1750 }

/-! ## SafetyCard -/

/-- The pair `(colorClass, statusText)` chosen by `SafetyCard`
(`touristDashboard.jsx`, lines 24-34). -/
def safetyCardStatus {α : Type} [LinearOrderedRing α] (score : α) : String × String :=
  if 80 ≤ score then
    ("text-green-500", "Safety Status: Good")
  else if 50 < score then
    ("text-yellow-500", "Safety Status: Caution")
  else
    ("text-red-500", "Safety Status: High Risk")

/-! ## Panic button -/

/-- The body of the `axios.post` issued by `handlePanic`, with its URL. -/
structure PanicRequest (α : Type) where
  url : String
  touristId : String
  lat : α
  lng : α
deriving DecidableEq, Repr

/-- The state read and written by `handlePanic`. -/
structure PanicState (α : Type) where
  currentLocation : Option (LatLng α)
  showPanicModal : Bool
  panicStatus : String
deriving DecidableEq, Repr

/-- What one call of `handlePanic` leaves behind: the state, the requests sent
and the browser `alert` messages shown. -/
structure PanicResult (α : Type) where
  state : PanicState α
  requests : List (PanicRequest α)
  alerts : List String
deriving DecidableEq, Repr

/-- The function `handlePanic` of `touristDashboard.jsx` (lines 255-274);
`postSucceeds` tells whether the awaited request resolves or throws. -/
def handlePanic {α : Type} (touristId : String) (postSucceeds : Bool) (s : PanicState α) :
    PanicResult α :=
  match s.currentLocation with
  | none =>
    { state := s
      requests := []
      alerts := ["Cannot send panic alert: current location is not available."] }
  | some currentLocation =>
    let request : PanicRequest α :=
      { url := "/api/panic", touristId := touristId,
        lat := currentLocation.lat, lng := currentLocation.lng }
    { state :=
        { s with
            showPanicModal := true
            panicStatus :=
              if postSucceeds then "Success! Your alert has been sent. Help is on the way."
              else "Error! Could not send alert. Please contact emergency services directly." }
      requests := [request]
      alerts := [] }

/-- Requests sent by a sequence of `handlePanic` calls, one outcome per call,
in order. -/
def handlePanicRequests {α : Type} (touristId : String) (s : PanicState α) :
    List Bool → List (PanicRequest α)
  | [] => []
  | ok :: rest =>
    (handlePanic touristId ok s).requests
      ++ handlePanicRequests touristId (handlePanic touristId ok s).state rest

/-! ## Routes and portal links -/

/-- The `path` attributes of the `Route` elements of `App.jsx` (lines 19-26). -/
def appRoutes : List String :=
  [ "/", "/tourist/dashboard/:touristId", "/tourist/id/:touristId", "/tourist/tracking",
    "/police/dashboard/:stationId", "/police/alert", "/tourist/alert", "/tourist/register" ]

/-- The `to` attributes of the three `PortalLink` elements of `LandingPage.jsx`
(lines 61-75). -/
def portalLinks : List String :=
  [ "/dashboard/T-MORAI-250912-001", "/police/1", "/admin/id-issue" ]

/-- The `to` targets of the links of `touristDashboard.jsx` (lines 340-341), the
second one for a given `touristId`. -/
def dashboardLinks (touristId : String) : List String :=
  [ "/tourist/tracking", "/tourist/id/" ++ touristId ]

/-- Pieces of a character list between slashes. -/
def splitSlash : List Char → List (List Char)
  | [] => [[]]
  | c :: cs =>
    if c = '/' then [] :: splitSlash cs
    else
      match splitSlash cs with
      | [] => [[c]]
      | seg :: rest => (c :: seg) :: rest

/-- The non-empty segments of a path. -/
def pathSegments (path : String) : List (List Char) :=
  (splitSlash path.toList).filter (fun seg => !seg.isEmpty)

/-- A pattern segment against a path segment: a `:param` segment matches every
non-empty segment, any other segment matches itself, ignoring case as the
router does by default. -/
def segmentMatches (pattern segment : List Char) : Bool :=
  match pattern with
  | ':' :: _ => !segment.isEmpty
  | _ => pattern.map Char.toLower == segment.map Char.toLower

/-- Segment-wise match of two segment lists of the same length. -/
def segmentsMatch : List (List Char) → List (List Char) → Bool
  | [], [] => true
  | p :: ps, s :: ss => segmentMatches p s && segmentsMatch ps ss
  | _, _ => false

/-- A target path matches a route path of `Routes`. -/
def matchesRoute (route target : String) : Bool :=
  segmentsMatch (pathSegments route) (pathSegments target)

/-- The route paths of `App` that a target matches. -/
def matchingRoutes (target : String) : List String :=
  appRoutes.filter (fun route => matchesRoute route target)

/-! ## The built-in walk -/

/-- The `pathIndex` after `n` interval ticks: it starts at 0 and each tick
applies `prevIndex => (prevIndex + 1) % touristPath.length` (line 45). -/
def pathIndexAfter : Nat → Fin 10
  | 0 => 0
  | n + 1 => ⟨((pathIndexAfter n).val + 1) % 10, Nat.mod_lt _ (by decide)⟩

/-- The input of the `n`-th execution of the alert effect of
`SimulationProvider`, with `clock n` the value of `Date.now()` then. -/
noncomputable def walkTick (clock : Nat → Nat) (n : Nat) : Tick ℝ :=
  providerTick
    { pathIndex := pathIndexAfter n, providerNow := clock n,
      touristAlertNow := clock n, policeAlertNow := clock n }

/-- The state of `SimulationProvider` before the `n`-th execution of the alert
effect. -/
noncomputable def walkState (clock : Nat → Nat) : Nat → ProviderState ℝ
  | 0 => providerInitialState
  | n + 1 => (simulationEffect riskZone.toReal (walkTick clock n) (walkState clock n)).1

/-- The alerts created by the `n`-th execution of the alert effect. -/
noncomputable def walkEmitted (clock : Nat → Nat) (n : Nat) : List (Alert ℝ) :=
  (simulationEffect riskZone.toReal (walkTick clock n) (walkState clock n)).2

/-! ## Basic facts about one execution of the effects -/

section Lemmas

variable {α : Type} [LinearOrder α]

theorem warningBudget_le_one (b : Bool) : warningBudget b ≤ 1 := by
  cases b <;> simp [warningBudget]

theorem criticalBudget_le_one (b : Bool) : criticalBudget b ≤ 1 := by
  cases b <;> simp [criticalBudget]

theorem simulationEffect_warning_budget (zone : RiskZone α) (t : Tick α) (s : ProviderState α) :
    countType "warning" (simulationEffect zone t s).2
        + warningBudget (simulationEffect zone t s).1.triggeredWarning
      = warningBudget s.triggeredWarning := by
  simp only [simulationEffect]
  split_ifs with h1 h2
  · simp [countType, providerCriticalAlert]
  · simp [countType, warningAlert, warningBudget, h2.2]
  · simp [countType]

theorem simulationEffect_critical_budget (zone : RiskZone α) (t : Tick α) (s : ProviderState α) :
    countType "critical" (simulationEffect zone t s).2
        + criticalBudget (simulationEffect zone t s).1.triggeredCritical
      = criticalBudget s.triggeredCritical := by
  simp only [simulationEffect]
  split_ifs with h1 h2
  · simp [countType, providerCriticalAlert, criticalBudget, h1.2]
  · simp [countType, warningAlert]
  · simp [countType]

theorem touristAlertEffect_warning_budget (zone : RiskZone α) (t : Tick α)
    (s : TouristAlertState α) :
    countType "warning" (touristAlertEffect zone t s).2
        + warningBudget (touristAlertEffect zone t s).1.triggeredWarning
      = warningBudget s.triggeredWarning := by
  simp only [touristAlertEffect]
  split_ifs with h1 h2
  · simp [countType, touristCriticalAlert]
  · simp [countType, warningAlert, warningBudget, h2.2]
  · simp [countType]

theorem touristAlertEffect_critical_budget (zone : RiskZone α) (t : Tick α)
    (s : TouristAlertState α) :
    countType "critical" (touristAlertEffect zone t s).2
        + criticalBudget (touristAlertEffect zone t s).1.triggeredCritical
      = criticalBudget s.triggeredCritical := by
  simp only [touristAlertEffect]
  split_ifs with h1 h2
  · simp [countType, touristCriticalAlert, criticalBudget, h1.2]
  · simp [countType, warningAlert]
  · simp [countType]

omit [LinearOrder α] in
theorem countType_append (ty : String) (xs ys : List (Alert α)) :
    countType ty (xs ++ ys) = countType ty xs + countType ty ys := by
  simp [countType]

/-! ## Runs and traces -/

theorem simulationTrace_length (zone : RiskZone α) (s : ProviderState α) (ts : List (Tick α)) :
    (simulationTrace zone s ts).length = ts.length := by
  induction ts generalizing s with
  | nil => rfl
  | cons t ts ih => simp [simulationTrace, ih]

theorem simulationTrace_append (zone : RiskZone α) (s : ProviderState α)
    (xs ys : List (Tick α)) :
    simulationTrace zone s (xs ++ ys)
      = simulationTrace zone s xs ++ simulationTrace zone (simulationRun zone s xs) ys := by
  induction xs generalizing s with
  | nil => rfl
  | cons t ts ih => simp [simulationTrace, simulationRun, ih]

theorem simulationRun_append (zone : RiskZone α) (s : ProviderState α)
    (xs ys : List (Tick α)) :
    simulationRun zone s (xs ++ ys) = simulationRun zone (simulationRun zone s xs) ys := by
  induction xs generalizing s with
  | nil => rfl
  | cons t ts ih => simp [simulationRun, ih]

theorem touristAlertTrace_length (zone : RiskZone α) (s : TouristAlertState α)
    (ts : List (Tick α)) :
    (touristAlertTrace zone s ts).length = ts.length := by
  induction ts generalizing s with
  | nil => rfl
  | cons t ts ih => simp [touristAlertTrace, ih]

theorem touristAlertTrace_append (zone : RiskZone α) (s : TouristAlertState α)
    (xs ys : List (Tick α)) :
    touristAlertTrace zone s (xs ++ ys)
      = touristAlertTrace zone s xs
          ++ touristAlertTrace zone (touristAlertRun zone s xs) ys := by
  induction xs generalizing s with
  | nil => rfl
  | cons t ts ih => simp [touristAlertTrace, touristAlertRun, ih]

/-- Over a whole run the warnings created and the budget left add up to the
budget at the start. -/
theorem simulationTrace_warning_budget (zone : RiskZone α) (s : ProviderState α)
    (ts : List (Tick α)) :
    countType "warning" (simulationTrace zone s ts).flatten
        + warningBudget (simulationRun zone s ts).triggeredWarning
      = warningBudget s.triggeredWarning := by
  induction ts generalizing s with
  | nil => simp [simulationTrace, simulationRun, countType]
  | cons t ts ih =>
    have h := simulationEffect_warning_budget zone t s
    have h2 := ih (simulationEffect zone t s).1
    simp only [simulationTrace, simulationRun, List.flatten_cons, countType_append]
    omega

theorem simulationTrace_critical_budget (zone : RiskZone α) (s : ProviderState α)
    (ts : List (Tick α)) :
    countType "critical" (simulationTrace zone s ts).flatten
        + criticalBudget (simulationRun zone s ts).triggeredCritical
      = criticalBudget s.triggeredCritical := by
  induction ts generalizing s with
  | nil => simp [simulationTrace, simulationRun, countType]
  | cons t ts ih =>
    have h := simulationEffect_critical_budget zone t s
    have h2 := ih (simulationEffect zone t s).1
    simp only [simulationTrace, simulationRun, List.flatten_cons, countType_append]
    omega

theorem touristAlertTrace_warning_budget (zone : RiskZone α) (s : TouristAlertState α)
    (ts : List (Tick α)) :
    countType "warning" (touristAlertTrace zone s ts).flatten
        + warningBudget (touristAlertRun zone s ts).triggeredWarning
      = warningBudget s.triggeredWarning := by
  induction ts generalizing s with
  | nil => simp [touristAlertTrace, touristAlertRun, countType]
  | cons t ts ih =>
    have h := touristAlertEffect_warning_budget zone t s
    have h2 := ih (touristAlertEffect zone t s).1
    simp only [touristAlertTrace, touristAlertRun, List.flatten_cons, countType_append]
    omega

theorem touristAlertTrace_critical_budget (zone : RiskZone α) (s : TouristAlertState α)
    (ts : List (Tick α)) :
    countType "critical" (touristAlertTrace zone s ts).flatten
        + criticalBudget (touristAlertRun zone s ts).triggeredCritical
      = criticalBudget s.triggeredCritical := by
  induction ts generalizing s with
  | nil => simp [touristAlertTrace, touristAlertRun, countType]
  | cons t ts ih =>
    have h := touristAlertEffect_critical_budget zone t s
    have h2 := ih (touristAlertEffect zone t s).1
    simp only [touristAlertTrace, touristAlertRun, List.flatten_cons, countType_append]
    omega

/-- The alerts created during the middle segment of `pre ++ ep ++ post` are the
trace of `ep` started in the state reached after `pre`. -/
theorem emittedDuring_simulationTrace (zone : RiskZone α) (s : ProviderState α)
    (pre ep post : List (Tick α)) :
    emittedDuring (simulationTrace zone s (pre ++ ep ++ post)) pre.length ep.length
      = (simulationTrace zone (simulationRun zone s pre) ep).flatten := by
  unfold emittedDuring
  rw [List.append_assoc, simulationTrace_append, simulationTrace_append]
  rw [List.drop_left' (simulationTrace_length zone s pre)]
  rw [List.take_left' (simulationTrace_length zone _ ep)]

theorem emittedDuring_touristAlertTrace (zone : RiskZone α) (s : TouristAlertState α)
    (pre ep post : List (Tick α)) :
    emittedDuring (touristAlertTrace zone s (pre ++ ep ++ post)) pre.length ep.length
      = (touristAlertTrace zone (touristAlertRun zone s pre) ep).flatten := by
  unfold emittedDuring
  rw [List.append_assoc, touristAlertTrace_append, touristAlertTrace_append]
  rw [List.drop_left' (touristAlertTrace_length zone s pre)]
  rw [List.take_left' (touristAlertTrace_length zone _ ep)]

/-! ## Single executions, branch by branch -/

theorem simulationEffect_keeps_warning (zone : RiskZone α) (t : Tick α) (s : ProviderState α)
    (h : s.triggeredWarning = true) : (simulationEffect zone t s).1.triggeredWarning = true := by
  simp only [simulationEffect]
  split_ifs <;> simp [h]

theorem simulationEffect_keeps_critical (zone : RiskZone α) (t : Tick α) (s : ProviderState α)
    (h : s.triggeredCritical = true) : (simulationEffect zone t s).1.triggeredCritical = true := by
  simp only [simulationEffect]
  split_ifs <;> simp [h]

/-- Branch 1: inside the critical radius with the critical flag unset. -/
theorem simulationEffect_critical (zone : RiskZone α) (t : Tick α) (s : ProviderState α)
    (hd : t.distance ≤ zone.criticalRadius) (hc : s.triggeredCritical = false) :
    (simulationEffect zone t s).2 = [providerCriticalAlert zone t]
      ∧ (simulationEffect zone t s).1.triggeredCritical = true
      ∧ (simulationEffect zone t s).1.triggeredWarning = s.triggeredWarning := by
  simp [simulationEffect, hd, hc]

/-- Branch 2: branch 1 not taken, inside the warning radius, warning flag unset. -/
theorem simulationEffect_warning (zone : RiskZone α) (t : Tick α) (s : ProviderState α)
    (h1 : ¬ (t.distance ≤ zone.criticalRadius ∧ s.triggeredCritical = false))
    (hd : t.distance ≤ zone.warningRadius) (hw : s.triggeredWarning = false) :
    (simulationEffect zone t s).2 = [warningAlert zone t]
      ∧ (simulationEffect zone t s).1.triggeredWarning = true
      ∧ (simulationEffect zone t s).1.triggeredCritical = s.triggeredCritical := by
  simp only [simulationEffect]
  rw [if_neg h1, if_pos ⟨hd, hw⟩]
  simp

/-- Branch 3: neither condition holds; only the stored position changes. -/
theorem simulationEffect_silent (zone : RiskZone α) (t : Tick α) (s : ProviderState α)
    (h1 : ¬ (t.distance ≤ zone.criticalRadius ∧ s.triggeredCritical = false))
    (h2 : ¬ (t.distance ≤ zone.warningRadius ∧ s.triggeredWarning = false)) :
    (simulationEffect zone t s).2 = []
      ∧ (simulationEffect zone t s).1.triggeredWarning = s.triggeredWarning
      ∧ (simulationEffect zone t s).1.triggeredCritical = s.triggeredCritical
      ∧ (simulationEffect zone t s).1.touristAlerts = s.touristAlerts
      ∧ (simulationEffect zone t s).1.policeAlerts = s.policeAlerts := by
  simp only [simulationEffect]
  rw [if_neg h1, if_neg h2]
  simp

theorem touristAlertEffect_critical (zone : RiskZone α) (t : Tick α) (s : TouristAlertState α)
    (hd : t.distance ≤ zone.criticalRadius) (hc : s.triggeredCritical = false) :
    (touristAlertEffect zone t s).2 = [touristCriticalAlert zone t]
      ∧ (touristAlertEffect zone t s).1.triggeredCritical = true
      ∧ (touristAlertEffect zone t s).1.triggeredWarning = s.triggeredWarning := by
  simp [touristAlertEffect, hd, hc]

theorem touristAlertEffect_warning (zone : RiskZone α) (t : Tick α) (s : TouristAlertState α)
    (h1 : ¬ (t.distance ≤ zone.criticalRadius ∧ s.triggeredCritical = false))
    (hd : t.distance ≤ zone.warningRadius) (hw : s.triggeredWarning = false) :
    (touristAlertEffect zone t s).2 = [warningAlert zone t]
      ∧ (touristAlertEffect zone t s).1.triggeredWarning = true
      ∧ (touristAlertEffect zone t s).1.triggeredCritical = s.triggeredCritical := by
  simp only [touristAlertEffect]
  rw [if_neg h1, if_pos ⟨hd, hw⟩]
  simp

theorem touristAlertEffect_silent (zone : RiskZone α) (t : Tick α) (s : TouristAlertState α)
    (h1 : ¬ (t.distance ≤ zone.criticalRadius ∧ s.triggeredCritical = false))
    (h2 : ¬ (t.distance ≤ zone.warningRadius ∧ s.triggeredWarning = false)) :
    (touristAlertEffect zone t s).2 = []
      ∧ (touristAlertEffect zone t s).1.triggeredWarning = s.triggeredWarning
      ∧ (touristAlertEffect zone t s).1.triggeredCritical = s.triggeredCritical
      ∧ (touristAlertEffect zone t s).1.touristAlerts = s.touristAlerts := by
  simp only [touristAlertEffect]
  rw [if_neg h1, if_neg h2]
  simp

/-- After a position inside the critical radius the critical flag is set. -/
theorem simulationEffect_critical_flag (zone : RiskZone α) (t : Tick α) (s : ProviderState α)
    (hd : t.distance ≤ zone.criticalRadius) :
    (simulationEffect zone t s).1.triggeredCritical = true := by
  cases hc : s.triggeredCritical with
  | false => exact (simulationEffect_critical zone t s hd hc).2.1
  | true => exact simulationEffect_keeps_critical zone t s hc

theorem touristAlertEffect_critical_flag (zone : RiskZone α) (t : Tick α)
    (s : TouristAlertState α) (hd : t.distance ≤ zone.criticalRadius) :
    (touristAlertEffect zone t s).1.triggeredCritical = true := by
  cases hc : s.triggeredCritical with
  | false => exact (touristAlertEffect_critical zone t s hd hc).2.1
  | true =>
    simp only [touristAlertEffect]
    split_ifs <;> simp [hc]

/-- After a position in the warning band the warning flag is set. -/
theorem simulationEffect_warning_flag (zone : RiskZone α) (t : Tick α) (s : ProviderState α)
    (h1 : zone.criticalRadius < t.distance) (hd : t.distance ≤ zone.warningRadius) :
    (simulationEffect zone t s).1.triggeredWarning = true := by
  cases hw : s.triggeredWarning with
  | false => exact (simulationEffect_warning zone t s (fun h => absurd h.1 (not_le.mpr h1)) hd hw).2.1
  | true => exact simulationEffect_keeps_warning zone t s hw

theorem touristAlertEffect_warning_flag (zone : RiskZone α) (t : Tick α)
    (s : TouristAlertState α)
    (h1 : zone.criticalRadius < t.distance) (hd : t.distance ≤ zone.warningRadius) :
    (touristAlertEffect zone t s).1.triggeredWarning = true := by
  cases hw : s.triggeredWarning with
  | false =>
    exact (touristAlertEffect_warning zone t s (fun h => absurd h.1 (not_le.mpr h1)) hd hw).2.1
  | true =>
    simp only [touristAlertEffect]
    split_ifs <;> simp [hw]

/-- A warning alert in the trace of a run leaves `triggeredWarning` set. -/
theorem simulationRun_warning_flag_of_emitted (zone : RiskZone α) (s : ProviderState α)
    (ts : List (Tick α))
    (h : ∃ a ∈ (simulationTrace zone s ts).flatten, a.type = "warning") :
    (simulationRun zone s ts).triggeredWarning = true := by
  have hb := simulationTrace_warning_budget zone s ts
  have h1 := warningBudget_le_one s.triggeredWarning
  have hpos : 0 < countType "warning" (simulationTrace zone s ts).flatten := by
    obtain ⟨a, ha, hty⟩ := h
    exact List.countP_pos_iff.mpr ⟨a, ha, by simpa using hty⟩
  cases hw : (simulationRun zone s ts).triggeredWarning with
  | true => rfl
  | false =>
    rw [hw] at hb
    simp only [warningBudget] at hb h1
    simp at hb
    omega

end Lemmas

/-! ## Once-only alerting -/

section Claims

variable {α : Type} [LinearOrder α]

/-- C1: starting with both triggered flags false, within every episode of a
position sequence (a maximal run of consecutive positions at distance at most
`warningRadius`) the alert check of `SimulationProvider`, and that of
`TouristAlert`, creates at most one alert of type warning and at most one of
type critical. -/
theorem episode_at_most_one_alert_each (zone : RiskZone α)
    (s : ProviderState α) (u : TouristAlertState α) (pre ep post : List (Tick α)) :
    s.triggeredWarning = false → s.triggeredCritical = false →
    u.triggeredWarning = false → u.triggeredCritical = false →
    isEpisode zone pre ep post = true →
    countType "warning"
        (emittedDuring (simulationTrace zone s (pre ++ ep ++ post)) pre.length ep.length) ≤ 1
      ∧ countType "critical"
        (emittedDuring (simulationTrace zone s (pre ++ ep ++ post)) pre.length ep.length) ≤ 1
      ∧ countType "warning"
        (emittedDuring (touristAlertTrace zone u (pre ++ ep ++ post)) pre.length ep.length) ≤ 1
      ∧ countType "critical"
        (emittedDuring (touristAlertTrace zone u (pre ++ ep ++ post)) pre.length ep.length) ≤ 1 := by
  intro _ _ _ _ _
  rw [emittedDuring_simulationTrace, emittedDuring_touristAlertTrace]
  have h1 := simulationTrace_warning_budget zone (simulationRun zone s pre) ep
  have h2 := simulationTrace_critical_budget zone (simulationRun zone s pre) ep
  have h3 := touristAlertTrace_warning_budget zone (touristAlertRun zone u pre) ep
  have h4 := touristAlertTrace_critical_budget zone (touristAlertRun zone u pre) ep
  have b1 := warningBudget_le_one (simulationRun zone s pre).triggeredWarning
  have b2 := criticalBudget_le_one (simulationRun zone s pre).triggeredCritical
  have b3 := warningBudget_le_one (touristAlertRun zone u pre).triggeredWarning
  have b4 := criticalBudget_le_one (touristAlertRun zone u pre).triggeredCritical
  omega

/-- C3: no execution of the alert check turns `triggeredWarning` or
`triggeredCritical` from true to false, and over every sequence of positions,
from every state, the check creates at most one warning alert and at most one
critical alert in total. -/
theorem flags_never_cleared_once_per_session :
    (∀ (zone : RiskZone α) (t : Tick α) (s : ProviderState α),
        (s.triggeredWarning = true → (simulationEffect zone t s).1.triggeredWarning = true)
          ∧ (s.triggeredCritical = true
              → (simulationEffect zone t s).1.triggeredCritical = true))
      ∧ ∀ (zone : RiskZone α) (s : ProviderState α) (ts : List (Tick α)),
          countType "warning" (simulationTrace zone s ts).flatten ≤ 1
            ∧ countType "critical" (simulationTrace zone s ts).flatten ≤ 1 := by
  refine ⟨fun zone t s => ⟨fun h => ?_, fun h => ?_⟩, fun zone s ts => ⟨?_, ?_⟩⟩
  · simp only [simulationEffect]
    split_ifs <;> simp [h]
  · simp only [simulationEffect]
    split_ifs <;> simp [h]
  · have h := simulationTrace_warning_budget zone s ts
    have b := warningBudget_le_one s.triggeredWarning
    omega
  · have h := simulationTrace_critical_budget zone s ts
    have b := criticalBudget_le_one s.triggeredCritical
    omega

/-! ## Behaviour at level changes -/

/-- C2 (as amended): once a warning alert has been created, leaving the zone
does not re-arm it: after a later position outside the warning radius, a
position in the warning band creates no alert and both flags stay as they were. -/
theorem no_rearm_after_leaving (zone : RiskZone α) (s : ProviderState α)
    (pre : List (Tick α)) (tOut tIn : Tick α) :
    (∃ a ∈ (simulationTrace zone s pre).flatten, a.type = "warning") →
    zone.warningRadius < tOut.distance →
    zone.criticalRadius < tIn.distance → tIn.distance ≤ zone.warningRadius →
    (simulationEffect zone tIn (simulationRun zone s (pre ++ [tOut]))).2 = []
      ∧ (simulationEffect zone tIn (simulationRun zone s (pre ++ [tOut]))).1.triggeredWarning
          = true := by
  intro hem _ hlo hhi
  have hw : (simulationRun zone s (pre ++ [tOut])).triggeredWarning = true := by
    rw [simulationRun_append]
    exact simulationEffect_keeps_warning zone tOut _
      (simulationRun_warning_flag_of_emitted zone s pre hem)
  have h := simulationEffect_silent zone tIn (simulationRun zone s (pre ++ [tOut]))
    (fun h => absurd h.1 (not_le.mpr hlo)) (fun h => by simp [hw] at h)
  exact ⟨h.1, by rw [h.2.1, hw]⟩

/-- C4: with both flags false and `criticalRadius ≤ warningRadius`, a position
at distance `d` creates no alert when `d > warningRadius`, exactly the warning
alert when `criticalRadius < d ≤ warningRadius`, and exactly the critical alert
when `d ≤ criticalRadius`. -/
theorem first_position_classification (zone : RiskZone α) (t : Tick α) (s : ProviderState α) :
    s.triggeredWarning = false → s.triggeredCritical = false →
    zone.criticalRadius ≤ zone.warningRadius →
    (zone.warningRadius < t.distance → (simulationEffect zone t s).2 = [])
      ∧ (zone.criticalRadius < t.distance → t.distance ≤ zone.warningRadius →
          (simulationEffect zone t s).2 = [warningAlert zone t])
      ∧ (t.distance ≤ zone.criticalRadius →
          (simulationEffect zone t s).2 = [providerCriticalAlert zone t])
      ∧ (warningAlert zone t).type = "warning"
      ∧ (providerCriticalAlert zone t).type = "critical" := by
  intro hw hc hr
  refine ⟨fun h => ?_, fun h1 h2 => ?_, fun h => ?_, rfl, rfl⟩
  · exact (simulationEffect_silent zone t s
      (fun h3 => absurd (le_trans h3.1 hr) (not_le.mpr h))
      (fun h3 => absurd h3.1 (not_le.mpr h))).1
  · exact (simulationEffect_warning zone t s (fun h3 => absurd h3.1 (not_le.mpr h1)) h2 hw).1
  · exact (simulationEffect_critical zone t s h hc).1

/-- C5 (as amended): for a zone with `criticalRadius ≤ warningRadius` and two
consecutive positions of the same level, in `SimulationProvider` and in
`TouristAlert`: when both are outside the warning radius, or both in the
warning band, the second creates no alert and changes neither flag; when both
are inside the critical radius, the second creates no critical alert and leaves
`triggeredCritical` set, and if `triggeredWarning` is already set it creates no
alert at all and changes neither flag. -/
theorem same_level_second_position (zone : RiskZone α) (s : ProviderState α)
    (u : TouristAlertState α) (t1 t2 : Tick α) :
    zone.criticalRadius ≤ zone.warningRadius →
    (zone.warningRadius < t1.distance → zone.warningRadius < t2.distance →
        ((simulationEffect zone t2 (simulationEffect zone t1 s).1).2 = []
          ∧ (simulationEffect zone t2 (simulationEffect zone t1 s).1).1.triggeredWarning
              = (simulationEffect zone t1 s).1.triggeredWarning
          ∧ (simulationEffect zone t2 (simulationEffect zone t1 s).1).1.triggeredCritical
              = (simulationEffect zone t1 s).1.triggeredCritical)
        ∧ ((touristAlertEffect zone t2 (touristAlertEffect zone t1 u).1).2 = []
          ∧ (touristAlertEffect zone t2 (touristAlertEffect zone t1 u).1).1.triggeredWarning
              = (touristAlertEffect zone t1 u).1.triggeredWarning
          ∧ (touristAlertEffect zone t2 (touristAlertEffect zone t1 u).1).1.triggeredCritical
              = (touristAlertEffect zone t1 u).1.triggeredCritical))
      ∧ (zone.criticalRadius < t1.distance → t1.distance ≤ zone.warningRadius →
          zone.criticalRadius < t2.distance → t2.distance ≤ zone.warningRadius →
        ((simulationEffect zone t2 (simulationEffect zone t1 s).1).2 = []
          ∧ (simulationEffect zone t2 (simulationEffect zone t1 s).1).1.triggeredWarning
              = (simulationEffect zone t1 s).1.triggeredWarning
          ∧ (simulationEffect zone t2 (simulationEffect zone t1 s).1).1.triggeredCritical
              = (simulationEffect zone t1 s).1.triggeredCritical)
        ∧ ((touristAlertEffect zone t2 (touristAlertEffect zone t1 u).1).2 = []
          ∧ (touristAlertEffect zone t2 (touristAlertEffect zone t1 u).1).1.triggeredWarning
              = (touristAlertEffect zone t1 u).1.triggeredWarning
          ∧ (touristAlertEffect zone t2 (touristAlertEffect zone t1 u).1).1.triggeredCritical
              = (touristAlertEffect zone t1 u).1.triggeredCritical))
      ∧ (t1.distance ≤ zone.criticalRadius → t2.distance ≤ zone.criticalRadius →
        (countType "critical" (simulationEffect zone t2 (simulationEffect zone t1 s).1).2 = 0
          ∧ (simulationEffect zone t2 (simulationEffect zone t1 s).1).1.triggeredCritical = true
          ∧ (simulationEffect zone t1 s).1.triggeredCritical = true
          ∧ ((simulationEffect zone t1 s).1.triggeredWarning = true →
              (simulationEffect zone t2 (simulationEffect zone t1 s).1).2 = []
              ∧ (simulationEffect zone t2 (simulationEffect zone t1 s).1).1.triggeredWarning
                  = true))
        ∧ (countType "critical"
              (touristAlertEffect zone t2 (touristAlertEffect zone t1 u).1).2 = 0
          ∧ (touristAlertEffect zone t2 (touristAlertEffect zone t1 u).1).1.triggeredCritical
              = true
          ∧ (touristAlertEffect zone t1 u).1.triggeredCritical = true
          ∧ ((touristAlertEffect zone t1 u).1.triggeredWarning = true →
              (touristAlertEffect zone t2 (touristAlertEffect zone t1 u).1).2 = []
              ∧ (touristAlertEffect zone t2 (touristAlertEffect zone t1 u).1).1.triggeredWarning
                  = true))) := by
  intro hr
  refine ⟨fun _ h2 => ⟨?_, ?_⟩, fun h1 h1w h2 _ => ⟨?_, ?_⟩, fun h1 h2 => ⟨?_, ?_⟩⟩
  · have h := simulationEffect_silent zone t2 (simulationEffect zone t1 s).1
      (fun h3 => absurd (le_trans h3.1 hr) (not_le.mpr h2))
      (fun h3 => absurd h3.1 (not_le.mpr h2))
    exact ⟨h.1, h.2.1, h.2.2.1⟩
  · have h := touristAlertEffect_silent zone t2 (touristAlertEffect zone t1 u).1
      (fun h3 => absurd (le_trans h3.1 hr) (not_le.mpr h2))
      (fun h3 => absurd h3.1 (not_le.mpr h2))
    exact ⟨h.1, h.2.1, h.2.2.1⟩
  · have hw := simulationEffect_warning_flag zone t1 s h1 h1w
    have h := simulationEffect_silent zone t2 (simulationEffect zone t1 s).1
      (fun h3 => absurd h3.1 (not_le.mpr h2)) (fun h3 => by simp [hw] at h3)
    exact ⟨h.1, h.2.1, h.2.2.1⟩
  · have hw := touristAlertEffect_warning_flag zone t1 u h1 h1w
    have h := touristAlertEffect_silent zone t2 (touristAlertEffect zone t1 u).1
      (fun h3 => absurd h3.1 (not_le.mpr h2)) (fun h3 => by simp [hw] at h3)
    exact ⟨h.1, h.2.1, h.2.2.1⟩
  · have hc := simulationEffect_critical_flag zone t1 s h1
    have hb := simulationEffect_critical_budget zone t2 (simulationEffect zone t1 s).1
    rw [hc] at hb
    refine ⟨by have h0 : criticalBudget true = 0 := rfl; omega,
      simulationEffect_keeps_critical zone t2 _ hc, hc, fun hw => ?_⟩
    have h := simulationEffect_silent zone t2 (simulationEffect zone t1 s).1
      (fun h3 => by simp [hc] at h3) (fun h3 => by simp [hw] at h3)
    exact ⟨h.1, by rw [h.2.1, hw]⟩
  · have hc := touristAlertEffect_critical_flag zone t1 u h1
    have hb := touristAlertEffect_critical_budget zone t2 (touristAlertEffect zone t1 u).1
    rw [hc] at hb
    have hc2 := touristAlertEffect_critical_flag zone t2 (touristAlertEffect zone t1 u).1 h2
    refine ⟨by have h0 : criticalBudget true = 0 := rfl; omega, hc2, hc, fun hw => ?_⟩
    have h := touristAlertEffect_silent zone t2 (touristAlertEffect zone t1 u).1
      (fun h3 => by simp [hc] at h3) (fun h3 => by simp [hw] at h3)
    exact ⟨h.1, by rw [h.2.1, hw]⟩

/-- C6 (as amended): a position inside the critical radius followed by a
position in the warning band: the second creates no critical alert; it creates
no alert at all when `triggeredWarning` is already set, and it creates the
warning alert when `triggeredWarning` is still unset. -/
theorem downgrade_second_position (zone : RiskZone α) (s : ProviderState α) (t1 t2 : Tick α) :
    t1.distance ≤ zone.criticalRadius →
    zone.criticalRadius < t2.distance → t2.distance ≤ zone.warningRadius →
    countType "critical" (simulationEffect zone t2 (simulationEffect zone t1 s).1).2 = 0
      ∧ ((simulationEffect zone t1 s).1.triggeredWarning = true →
          (simulationEffect zone t2 (simulationEffect zone t1 s).1).2 = [])
      ∧ ((simulationEffect zone t1 s).1.triggeredWarning = false →
          (simulationEffect zone t2 (simulationEffect zone t1 s).1).2 = [warningAlert zone t2]) := by
  intro _ h2 h2w
  have hn : ¬ (t2.distance ≤ zone.criticalRadius
      ∧ (simulationEffect zone t1 s).1.triggeredCritical = false) :=
    fun h3 => absurd h3.1 (not_le.mpr h2)
  have hw1 : ∀ hw : (simulationEffect zone t1 s).1.triggeredWarning = true,
      (simulationEffect zone t2 (simulationEffect zone t1 s).1).2 = [] := fun hw =>
    (simulationEffect_silent zone t2 _ hn (fun h3 => by simp [hw] at h3)).1
  have hw0 : ∀ hw : (simulationEffect zone t1 s).1.triggeredWarning = false,
      (simulationEffect zone t2 (simulationEffect zone t1 s).1).2 = [warningAlert zone t2] :=
    fun hw => (simulationEffect_warning zone t2 _ hn h2w hw).1
  refine ⟨?_, hw1, hw0⟩
  cases hw : (simulationEffect zone t1 s).1.triggeredWarning with
  | true => rw [hw1 hw]; rfl
  | false => rw [hw0 hw]; simp [countType, warningAlert]

/-- C7: in every state with `triggeredCritical` false, a position inside the
critical radius creates exactly one alert, of type critical, sets
`triggeredCritical` and leaves `triggeredWarning` unchanged. -/
theorem upgrade_to_critical (zone : RiskZone α) (t : Tick α) (s : ProviderState α) :
    s.triggeredCritical = false → t.distance ≤ zone.criticalRadius →
    (simulationEffect zone t s).2 = [providerCriticalAlert zone t]
      ∧ (providerCriticalAlert zone t).type = "critical"
      ∧ (simulationEffect zone t s).1.triggeredCritical = true
      ∧ (simulationEffect zone t s).1.triggeredWarning = s.triggeredWarning := by
  intro hc hd
  have h := simulationEffect_critical zone t s hd hc
  exact ⟨h.1, rfl, h.2.1, h.2.2⟩

/-- C8: for every value of the two flags and every position outside the warning
radius (with `criticalRadius ≤ warningRadius`), the alert check creates no
alert and leaves both flags, `touristAlerts` and `policeAlerts` unchanged. -/
theorem outside_never_fires (zone : RiskZone α) (t : Tick α) (s : ProviderState α) :
    zone.criticalRadius ≤ zone.warningRadius → zone.warningRadius < t.distance →
    (simulationEffect zone t s).2 = []
      ∧ (simulationEffect zone t s).1.triggeredWarning = s.triggeredWarning
      ∧ (simulationEffect zone t s).1.triggeredCritical = s.triggeredCritical
      ∧ (simulationEffect zone t s).1.touristAlerts = s.touristAlerts
      ∧ (simulationEffect zone t s).1.policeAlerts = s.policeAlerts := by
  intro hr h
  exact simulationEffect_silent zone t s
    (fun h3 => absurd (le_trans h3.1 hr) (not_le.mpr h))
    (fun h3 => absurd h3.1 (not_le.mpr h))

end Claims

/-- Witness for C1 on the walk 5000, 700, 300, 5000, 700: the episode is the run
700, 300. -/
theorem episode_at_most_one_alert_each_witness :
    isEpisode riskZone [tickAt 5000] [tickAt 700, tickAt 300] [tickAt 5000, tickAt 700] = true
      ∧ countType "warning"
          (emittedDuring (simulationTrace riskZone initialProviderState
            ([tickAt 5000] ++ [tickAt 700, tickAt 300] ++ [tickAt 5000, tickAt 700])) 1 2) ≤ 1
      ∧ countType "critical"
          (emittedDuring (simulationTrace riskZone initialProviderState
            ([tickAt 5000] ++ [tickAt 700, tickAt 300] ++ [tickAt 5000, tickAt 700])) 1 2) ≤ 1
      ∧ countType "warning"
          (emittedDuring (touristAlertTrace riskZone initialTouristAlertState
            ([tickAt 5000] ++ [tickAt 700, tickAt 300] ++ [tickAt 5000, tickAt 700])) 1 2) ≤ 1
      ∧ countType "critical"
          (emittedDuring (touristAlertTrace riskZone initialTouristAlertState
            ([tickAt 5000] ++ [tickAt 700, tickAt 300] ++ [tickAt 5000, tickAt 700])) 1 2) ≤ 1 :=
  ⟨by decide,
    episode_at_most_one_alert_each riskZone initialProviderState initialTouristAlertState
      [tickAt 5000] [tickAt 700, tickAt 300] [tickAt 5000, tickAt 700] rfl rfl rfl rfl (by decide)⟩

/-- Witness for C3: the flags set by the walk 5000, 700, 300 survive a further
position, and the walk 5000, 700, 300, 5000, 700 creates one alert of each type. -/
theorem flags_never_cleared_once_per_session_witness :
    ((simulationEffect riskZone (tickAt 5000)
        (simulationRun riskZone initialProviderState
          [tickAt 5000, tickAt 700, tickAt 300])).1.triggeredWarning = true
      ∧ (simulationEffect riskZone (tickAt 5000)
        (simulationRun riskZone initialProviderState
          [tickAt 5000, tickAt 700, tickAt 300])).1.triggeredCritical = true)
      ∧ countType "warning" (simulationTrace riskZone initialProviderState
          [tickAt 5000, tickAt 700, tickAt 300, tickAt 5000, tickAt 700]).flatten ≤ 1
      ∧ countType "critical" (simulationTrace riskZone initialProviderState
          [tickAt 5000, tickAt 700, tickAt 300, tickAt 5000, tickAt 700]).flatten ≤ 1 :=
  ⟨⟨(flags_never_cleared_once_per_session.1 riskZone (tickAt 5000) _).1 (by decide),
      (flags_never_cleared_once_per_session.1 riskZone (tickAt 5000) _).2 (by decide)⟩,
    flags_never_cleared_once_per_session.2 riskZone initialProviderState _⟩

/-- Counterexample to C2 as stated: on the distances 5000, 700, 300, 5000, 700
a warning is created at the first 700, nothing at the second 5000 (outside the
warning radius), and nothing at the final 700 although it lies in the warning
band. -/
theorem rearm_counterexample :
    simulationTrace riskZone initialProviderState
        [tickAt 5000, tickAt 700, tickAt 300, tickAt 5000, tickAt 700]
      = [[], [warningAlert riskZone (tickAt 700)],
          [providerCriticalAlert riskZone (tickAt 300)], [], []]
      ∧ riskZone.warningRadius < (tickAt 5000).distance
      ∧ riskZone.criticalRadius < (tickAt 700).distance
      ∧ (tickAt 700).distance ≤ riskZone.warningRadius
      ∧ ¬ ∃ a ∈ (simulationEffect riskZone (tickAt 700)
            (simulationRun riskZone initialProviderState
              [tickAt 5000, tickAt 700, tickAt 300, tickAt 5000])).2, a.type = "warning" :=
  ⟨rfl, by decide, by decide, by decide, by decide⟩

/-- Witness for C2 (as amended) on the distances 5000, 700, 300, 5000, 700. -/
theorem no_rearm_after_leaving_witness :
    (∃ a ∈ (simulationTrace riskZone initialProviderState
          [tickAt 5000, tickAt 700, tickAt 300]).flatten, a.type = "warning")
      ∧ riskZone.warningRadius < (tickAt 5000).distance
      ∧ riskZone.criticalRadius < (tickAt 700).distance
      ∧ (tickAt 700).distance ≤ riskZone.warningRadius
      ∧ (simulationEffect riskZone (tickAt 700)
          (simulationRun riskZone initialProviderState
            ([tickAt 5000, tickAt 700, tickAt 300] ++ [tickAt 5000]))).2 = []
      ∧ (simulationEffect riskZone (tickAt 700)
          (simulationRun riskZone initialProviderState
            ([tickAt 5000, tickAt 700, tickAt 300] ++ [tickAt 5000]))).1.triggeredWarning
          = true :=
  ⟨by decide, by decide, by decide, by decide,
    no_rearm_after_leaving riskZone initialProviderState
      [tickAt 5000, tickAt 700, tickAt 300] (tickAt 5000) (tickAt 700)
      (by decide) (by decide) (by decide) (by decide)⟩

/-- Witness for C4 at the distances 5000, 1000 (warning boundary), 700, 400
(critical boundary) and 300, from fresh flags. -/
theorem first_position_classification_witness :
    (simulationEffect riskZone (tickAt 5000) initialProviderState).2 = []
      ∧ (simulationEffect riskZone (tickAt 1000) initialProviderState).2
          = [warningAlert riskZone (tickAt 1000)]
      ∧ (simulationEffect riskZone (tickAt 700) initialProviderState).2
          = [warningAlert riskZone (tickAt 700)]
      ∧ (simulationEffect riskZone (tickAt 400) initialProviderState).2
          = [providerCriticalAlert riskZone (tickAt 400)]
      ∧ (simulationEffect riskZone (tickAt 300) initialProviderState).2
          = [providerCriticalAlert riskZone (tickAt 300)] :=
  ⟨(first_position_classification riskZone (tickAt 5000) initialProviderState
      rfl rfl (by decide)).1 (by decide),
    (first_position_classification riskZone (tickAt 1000) initialProviderState
      rfl rfl (by decide)).2.1 (by decide) (by decide),
    (first_position_classification riskZone (tickAt 700) initialProviderState
      rfl rfl (by decide)).2.1 (by decide) (by decide),
    (first_position_classification riskZone (tickAt 400) initialProviderState
      rfl rfl (by decide)).2.2.1 (by decide),
    (first_position_classification riskZone (tickAt 300) initialProviderState
      rfl rfl (by decide)).2.2.1 (by decide)⟩

/-- Counterexample to C5 as stated: from fresh flags, two consecutive positions
at 300 m are both inside the critical radius, yet the second one creates a
warning alert and sets `triggeredWarning`, in both components. -/
theorem same_level_counterexample :
    (tickAt 300).distance ≤ riskZone.criticalRadius
      ∧ simulationTrace riskZone initialProviderState [tickAt 300, tickAt 300]
          = [[providerCriticalAlert riskZone (tickAt 300)], [warningAlert riskZone (tickAt 300)]]
      ∧ (simulationRun riskZone initialProviderState [tickAt 300]).triggeredWarning = false
      ∧ (simulationRun riskZone initialProviderState [tickAt 300, tickAt 300]).triggeredWarning
          = true
      ∧ touristAlertTrace riskZone initialTouristAlertState [tickAt 300, tickAt 300]
          = [[touristCriticalAlert riskZone (tickAt 300)], [warningAlert riskZone (tickAt 300)]] :=
  ⟨by decide, rfl, by decide, by decide, by decide⟩

/-- Witness for C5 (as amended): two positions at 5000 and two at 700 from
fresh flags, and two at 300 after a warning has fired at 700. -/
theorem same_level_second_position_witness :
    ((simulationEffect riskZone (tickAt 5000)
          (simulationEffect riskZone (tickAt 5000) initialProviderState).1).2 = []
      ∧ (touristAlertEffect riskZone (tickAt 5000)
          (touristAlertEffect riskZone (tickAt 5000) initialTouristAlertState).1).2 = [])
      ∧ ((simulationEffect riskZone (tickAt 700)
          (simulationEffect riskZone (tickAt 700) initialProviderState).1).2 = []
        ∧ (touristAlertEffect riskZone (tickAt 700)
          (touristAlertEffect riskZone (tickAt 700) initialTouristAlertState).1).2 = [])
      ∧ ((simulationEffect riskZone (tickAt 300)
          (simulationEffect riskZone (tickAt 300)
            (simulationRun riskZone initialProviderState [tickAt 700])).1).2 = []
        ∧ (touristAlertEffect riskZone (tickAt 300)
          (touristAlertEffect riskZone (tickAt 300)
            (touristAlertRun riskZone initialTouristAlertState [tickAt 700])).1).2 = []) :=
  have hr : riskZone.criticalRadius ≤ riskZone.warningRadius := by decide
  have hA := (same_level_second_position riskZone initialProviderState
    initialTouristAlertState (tickAt 5000) (tickAt 5000) hr).1 (by decide) (by decide)
  have hB := (same_level_second_position riskZone initialProviderState
    initialTouristAlertState (tickAt 700) (tickAt 700) hr).2.1
      (by decide) (by decide) (by decide) (by decide)
  have hC := (same_level_second_position riskZone
    (simulationRun riskZone initialProviderState [tickAt 700])
    (touristAlertRun riskZone initialTouristAlertState [tickAt 700])
    (tickAt 300) (tickAt 300) hr).2.2 (by decide) (by decide)
  ⟨⟨hA.1.1, hA.2.1⟩, ⟨hB.1.1, hB.2.1⟩,
    ⟨(hC.1.2.2.2 (by decide)).1, (hC.2.2.2.2 (by decide)).1⟩⟩

/-- Counterexample to C6 as stated: on the distances 5000, 300, 700 from fresh
flags the position at 700, which follows a position inside the critical
radius, creates a warning alert. -/
theorem downgrade_counterexample :
    (tickAt 300).distance ≤ riskZone.criticalRadius
      ∧ riskZone.criticalRadius < (tickAt 700).distance
      ∧ (tickAt 700).distance ≤ riskZone.warningRadius
      ∧ simulationTrace riskZone initialProviderState [tickAt 5000, tickAt 300, tickAt 700]
          = [[], [providerCriticalAlert riskZone (tickAt 300)],
              [warningAlert riskZone (tickAt 700)]] :=
  ⟨by decide, by decide, by decide, rfl⟩

/-- Witness for C6 (as amended): 300 then 700 after a warning has already fired
(silent), and 300 then 700 from fresh flags (one warning). -/
theorem downgrade_second_position_witness :
    (simulationEffect riskZone (tickAt 700)
        (simulationEffect riskZone (tickAt 300)
          (simulationRun riskZone initialProviderState [tickAt 700])).1).2 = []
      ∧ (simulationEffect riskZone (tickAt 700)
        (simulationEffect riskZone (tickAt 300) initialProviderState).1).2
          = [warningAlert riskZone (tickAt 700)] :=
  ⟨(downgrade_second_position riskZone
      (simulationRun riskZone initialProviderState [tickAt 700]) (tickAt 300) (tickAt 700)
      (by decide) (by decide) (by decide)).2.1 (by decide),
    (downgrade_second_position riskZone initialProviderState (tickAt 300) (tickAt 700)
      (by decide) (by decide) (by decide)).2.2 (by decide)⟩

/-- Witness for C7: the distances 5000, 700, 300 create nothing, one warning and
one critical alert; the critical one is the upgrade from the state reached
after 5000, 700. -/
theorem upgrade_to_critical_witness :
    simulationTrace riskZone initialProviderState [tickAt 5000, tickAt 700]
        = [[], [warningAlert riskZone (tickAt 700)]]
      ∧ (simulationRun riskZone initialProviderState
          [tickAt 5000, tickAt 700]).triggeredCritical = false
      ∧ (tickAt 300).distance ≤ riskZone.criticalRadius
      ∧ (simulationEffect riskZone (tickAt 300)
          (simulationRun riskZone initialProviderState [tickAt 5000, tickAt 700])).2
          = [providerCriticalAlert riskZone (tickAt 300)]
      ∧ (providerCriticalAlert riskZone (tickAt 300)).type = "critical"
      ∧ (simulationEffect riskZone (tickAt 300)
          (simulationRun riskZone initialProviderState
            [tickAt 5000, tickAt 700])).1.triggeredCritical = true
      ∧ (simulationEffect riskZone (tickAt 300)
          (simulationRun riskZone initialProviderState
            [tickAt 5000, tickAt 700])).1.triggeredWarning
          = (simulationRun riskZone initialProviderState
            [tickAt 5000, tickAt 700]).triggeredWarning :=
  ⟨by decide, by decide, by decide,
    upgrade_to_critical riskZone (tickAt 300)
      (simulationRun riskZone initialProviderState [tickAt 5000, tickAt 700])
      (by decide) (by decide)⟩

/-- Witness for C8: a position at 5000 m, from fresh flags. -/
theorem outside_never_fires_witness :
    riskZone.criticalRadius ≤ riskZone.warningRadius
      ∧ riskZone.warningRadius < (tickAt 5000).distance
      ∧ (simulationEffect riskZone (tickAt 5000) initialProviderState).2 = []
      ∧ (simulationEffect riskZone (tickAt 5000) initialProviderState).1.triggeredWarning
          = initialProviderState.triggeredWarning
      ∧ (simulationEffect riskZone (tickAt 5000) initialProviderState).1.triggeredCritical
          = initialProviderState.triggeredCritical
      ∧ (simulationEffect riskZone (tickAt 5000) initialProviderState).1.touristAlerts
          = initialProviderState.touristAlerts
      ∧ (simulationEffect riskZone (tickAt 5000) initialProviderState).1.policeAlerts
          = initialProviderState.policeAlerts :=
  ⟨by decide, by decide,
    outside_never_fires riskZone (tickAt 5000) initialProviderState (by decide) (by decide)⟩

/-! ## Properties of `getDistance` -/

/-- The haversine intermediate `a` does not change when the two points are
swapped. -/
theorem haversine_sin_sq_swap (x y : ℝ) :
    Real.sin ((y - x) * Real.pi / 180 / 2) ^ 2 = Real.sin ((x - y) * Real.pi / 180 / 2) ^ 2 := by
  have h : (y - x) * Real.pi / 180 / 2 = -((x - y) * Real.pi / 180 / 2) := by ring
  rw [h, Real.sin_neg]
  ring

/-- C9: `getDistance` is symmetric in its two arguments. -/
theorem getDistance_symm (A B : LatLng ℝ) : getDistance A B = getDistance B A := by
  simp only [getDistance]
  rw [haversine_sin_sq_swap A.lat B.lat, haversine_sin_sq_swap A.lng B.lng,
    mul_comm (Real.cos (A.lat * Real.pi / 180)) (Real.cos (B.lat * Real.pi / 180))]

/-- C10: the distance of a point to itself is zero. -/
theorem getDistance_self (A : LatLng ℝ) : getDistance A A = 0 := by
  have h1 : (⟨1, 0⟩ : ℂ) = 1 := rfl
  simp [getDistance, atan2, h1]

/-! ## The haversine formula -/

/-- The code of `getDistance` in terms of its intermediate `a`. -/
theorem getDistance_eq_atan2 (p1 p2 : LatLng ℝ) :
    getDistance p1 p2
      = 6371e3 * (2 * atan2 (Real.sqrt (haversineA p1 p2)) (Real.sqrt (1 - haversineA p1 p2))) :=
  rfl

/-- Product of two cosines is between `-sin² (half difference)` and
`cos² (half difference)`. -/
theorem cos_mul_cos_bounds (x y : ℝ) :
    -(Real.sin ((y - x) / 2) ^ 2) ≤ Real.cos x * Real.cos y
      ∧ Real.cos x * Real.cos y ≤ 1 - Real.sin ((y - x) / 2) ^ 2 := by
  have hprod : Real.cos x * Real.cos y = (Real.cos (y - x) + Real.cos (y + x)) / 2 := by
    rw [Real.cos_sub, Real.cos_add]; ring
  have hhalf : Real.cos (y - x) = 1 - 2 * Real.sin ((y - x) / 2) ^ 2 := by
    have h := Real.cos_sq_add_sin_sq ((y - x) / 2)
    have h2 := Real.cos_two_mul ((y - x) / 2)
    have h3 : 2 * ((y - x) / 2) = y - x := by ring
    rw [h3] at h2
    nlinarith [sq_nonneg (Real.sin ((y - x) / 2)), Real.sin_sq_add_cos_sq ((y - x) / 2)]
  have hlo := Real.neg_one_le_cos (y + x)
  have hhi := Real.cos_le_one (y + x)
  constructor <;> rw [hprod, hhalf] <;> linarith

/-- The intermediate `a` lies in `[0, 1]` for all real coordinates. -/
theorem haversineA_mem_unit (p1 p2 : LatLng ℝ) :
    0 ≤ haversineA p1 p2 ∧ haversineA p1 p2 ≤ 1 := by
  simp only [haversineA]
  have harg : (p2.lat - p1.lat) * Real.pi / 180 / 2
      = (p2.lat * Real.pi / 180 - p1.lat * Real.pi / 180) / 2 := by ring
  have hc := cos_mul_cos_bounds (p1.lat * Real.pi / 180) (p2.lat * Real.pi / 180)
  rw [← harg] at hc
  have hs0 := sq_nonneg (Real.sin ((p2.lat - p1.lat) * Real.pi / 180 / 2))
  have hs1 := Real.sin_sq_le_one ((p2.lat - p1.lat) * Real.pi / 180 / 2)
  have ht0 := sq_nonneg (Real.sin ((p2.lng - p1.lng) * Real.pi / 180 / 2))
  have ht1 := Real.sin_sq_le_one ((p2.lng - p1.lng) * Real.pi / 180 / 2)
  constructor
  · nlinarith [mul_le_mul_of_nonneg_right hc.1 ht0]
  · nlinarith [mul_le_mul_of_nonneg_right hc.2 ht0]

/-- For `0 ≤ a ≤ 1` the code's `atan2(√a, √(1-a))` is `arcsin √a`. -/
theorem atan2_sqrt_eq_arcsin (a : ℝ) (h0 : 0 ≤ a) (h1 : a ≤ 1) :
    atan2 (Real.sqrt a) (Real.sqrt (1 - a)) = Real.arcsin (Real.sqrt a) := by
  unfold atan2
  have hre : 0 ≤ (⟨Real.sqrt (1 - a), Real.sqrt a⟩ : ℂ).re := Real.sqrt_nonneg _
  rw [Complex.arg_of_re_nonneg hre, Complex.abs_apply, Complex.normSq_mk,
    Real.mul_self_sqrt (by linarith), Real.mul_self_sqrt h0]
  simp

/-- C11: over the reals `getDistance` is the haversine great-circle distance with
Earth radius 6,371,000 m, `2 * 6371000 * arcsin (√a)`. -/
theorem getDistance_eq_haversine (p1 p2 : LatLng ℝ) :
    getDistance p1 p2 = 2 * 6371000 * Real.arcsin (Real.sqrt (haversineA p1 p2))
      ∧ haversineA p1 p2
          = Real.sin (((p2.lat - p1.lat) * Real.pi / 180) / 2) ^ 2
            + Real.cos (p1.lat * Real.pi / 180) * Real.cos (p2.lat * Real.pi / 180)
              * Real.sin (((p2.lng - p1.lng) * Real.pi / 180) / 2) ^ 2
      ∧ 2 * atan2 (Real.sqrt (haversineA p1 p2)) (Real.sqrt (1 - haversineA p1 p2))
          = 2 * Real.arcsin (Real.sqrt (haversineA p1 p2)) := by
  have h := haversineA_mem_unit p1 p2
  have hA := atan2_sqrt_eq_arcsin (haversineA p1 p2) h.1 h.2
  refine ⟨?_, rfl, by rw [hA]⟩
  rw [getDistance_eq_atan2, hA]
  norm_num
  ring

/-! ## Safety score of the tourist dashboard -/

section SafetyScore

variable {α β : Type} [LinearOrderedRing α]

/-- A response carrying a `policeAlert` sets the score to `max 0 (s - 5)`. -/
theorem onLocationUpdate_alert (data : Option (LocationUpdateData β)) (t : DashboardTourist α)
    (h : (data.bind (fun d => d.policeAlert)).isSome = true) :
    onLocationUpdate data t = { t with safetyScore := max 0 (t.safetyScore - 5) } := by
  simp [onLocationUpdate, h]

/-- A response without a `policeAlert` changes nothing. -/
theorem onLocationUpdate_no_alert (data : Option (LocationUpdateData β))
    (t : DashboardTourist α) (h : (data.bind (fun d => d.policeAlert)).isSome = false) :
    onLocationUpdate data t = t := by
  simp [onLocationUpdate, h]

theorem onLocationUpdate_range (data : Option (LocationUpdateData β)) (t : DashboardTourist α)
    (h0 : 0 ≤ t.safetyScore) (h1 : t.safetyScore ≤ 100) :
    0 ≤ (onLocationUpdate data t).safetyScore ∧ (onLocationUpdate data t).safetyScore ≤ 100 := by
  cases h : (data.bind (fun d => d.policeAlert)).isSome with
  | false => rw [onLocationUpdate_no_alert data t h]; exact ⟨h0, h1⟩
  | true =>
    rw [onLocationUpdate_alert data t h]
    refine ⟨le_max_left _ _, max_le (by norm_num) ?_⟩
    exact le_trans (sub_le_self _ (by norm_num)) h1

/-- C12: a safety score in `[0, 100]` is still in `[0, 100]` after any number of
location-update responses, with or without a `policeAlert`. -/
theorem safetyScore_stays_in_range (t : DashboardTourist α)
    (responses : List (Option (LocationUpdateData β))) :
    0 ≤ t.safetyScore → t.safetyScore ≤ 100 →
    0 ≤ (onLocationUpdates t responses).safetyScore
      ∧ (onLocationUpdates t responses).safetyScore ≤ 100 := by
  induction responses generalizing t with
  | nil => intro h0 h1; exact ⟨h0, h1⟩
  | cons r rs ih =>
    intro h0 h1
    have h := onLocationUpdate_range r t h0 h1
    exact ih (onLocationUpdate r t) h.1 h.2

/-- C13 (as amended): a response carrying a `policeAlert` sets the score to
`max 0 (s - 5)`, which is `min 100 (max 0 (s - 5))` whenever `s ≤ 105`; a
response without a `policeAlert` leaves the tourist unchanged. -/
theorem penalty_is_lower_clamp (data : Option (LocationUpdateData β)) (t : DashboardTourist α) :
    ((data.bind (fun d => d.policeAlert)).isSome = true →
        (onLocationUpdate data t).safetyScore = max 0 (t.safetyScore - 5)
          ∧ (t.safetyScore ≤ 105 →
              (onLocationUpdate data t).safetyScore = min 100 (max 0 (t.safetyScore - 5))))
      ∧ ((data.bind (fun d => d.policeAlert)).isSome = false → onLocationUpdate data t = t) := by
  refine ⟨fun h => ?_, fun h => onLocationUpdate_no_alert data t h⟩
  rw [onLocationUpdate_alert data t h]
  refine ⟨rfl, fun hs => ?_⟩
  have h100 : max 0 (t.safetyScore - 5) ≤ 100 :=
    max_le (by norm_num) (by
      have h5 : t.safetyScore - 5 ≤ 105 - 5 := sub_le_sub_right hs 5
      have e : (105 : α) - 5 = 100 := by norm_num
      rwa [e] at h5)
  exact (min_eq_right h100).symm

/-- C14 (as amended): for a score `s ≥ 0` the score after handling a response is
at most `s`. -/
theorem score_not_raised (data : Option (LocationUpdateData β)) (t : DashboardTourist α) :
    0 ≤ t.safetyScore → (onLocationUpdate data t).safetyScore ≤ t.safetyScore := by
  intro h0
  cases h : (data.bind (fun d => d.policeAlert)).isSome with
  | false => rw [onLocationUpdate_no_alert data t h]
  | true =>
    rw [onLocationUpdate_alert data t h]
    exact max_le h0 (sub_le_self _ (by norm_num))

end SafetyScore

/-- The update touches only `safetyScore`. -/
theorem onLocationUpdate_score_only (data : Option (LocationUpdateData Unit))
    (t : DashboardTourist ℤ) :
    (onLocationUpdate data t).name = t.name
      ∧ (onLocationUpdate data t).touristId = t.touristId := by
  simp only [onLocationUpdate]
  split_ifs <;> simp

/-- Witness for C12: the score 3 after three responses, two of them with a
`policeAlert`. -/
theorem safetyScore_stays_in_range_witness :
    (0 : ℤ) ≤ 3 ∧ (3 : ℤ) ≤ 100
      ∧ 0 ≤ (onLocationUpdates (⟨"Rohan Desai", "T-MORAI-250912-001", 3⟩ : DashboardTourist ℤ)
          [some ⟨some ()⟩, none, some ⟨some ()⟩]).safetyScore
      ∧ (onLocationUpdates (⟨"Rohan Desai", "T-MORAI-250912-001", 3⟩ : DashboardTourist ℤ)
          [some ⟨some ()⟩, none, some ⟨some ()⟩]).safetyScore ≤ 100 :=
  ⟨by decide, by decide,
    safetyScore_stays_in_range (⟨"Rohan Desai", "T-MORAI-250912-001", 3⟩ : DashboardTourist ℤ)
      [some ⟨some ()⟩, none, some ⟨some ()⟩] (by decide) (by decide)⟩

/-- Counterexample to C13 as stated: at score 200 a response with a `policeAlert`
gives 195, while `min 100 (max 0 (200 - 5))` is 100. -/
theorem penalty_clamp_counterexample :
    (onLocationUpdate (some ⟨some ()⟩)
        (⟨"Rohan Desai", "T-MORAI-250912-001", 200⟩ : DashboardTourist ℤ)).safetyScore = 195
      ∧ min (100 : ℤ) (max 0 (200 - 5)) = 100
      ∧ (onLocationUpdate (some ⟨some ()⟩)
        (⟨"Rohan Desai", "T-MORAI-250912-001", 200⟩ : DashboardTourist ℤ)).safetyScore
          ≠ min (100 : ℤ) (max 0 (200 - 5)) := by
  decide

/-- Witness for C13 (as amended) at the scores 62 and 3 with a `policeAlert` and
at 62 without. -/
theorem penalty_is_lower_clamp_witness :
    (onLocationUpdate (some ⟨some ()⟩)
        (⟨"Rohan Desai", "T-MORAI-250912-001", 62⟩ : DashboardTourist ℤ)).safetyScore
        = min 100 (max 0 (62 - 5))
      ∧ (onLocationUpdate (some ⟨some ()⟩)
        (⟨"Rohan Desai", "T-MORAI-250912-001", 3⟩ : DashboardTourist ℤ)).safetyScore
        = max 0 (3 - 5)
      ∧ onLocationUpdate (some (⟨none⟩ : LocationUpdateData Unit))
          (⟨"Rohan Desai", "T-MORAI-250912-001", 62⟩ : DashboardTourist ℤ)
        = ⟨"Rohan Desai", "T-MORAI-250912-001", 62⟩ :=
  ⟨((penalty_is_lower_clamp (some ⟨some ()⟩)
      (⟨"Rohan Desai", "T-MORAI-250912-001", 62⟩ : DashboardTourist ℤ)).1 rfl).2 (by decide),
    ((penalty_is_lower_clamp (some ⟨some ()⟩)
      (⟨"Rohan Desai", "T-MORAI-250912-001", 3⟩ : DashboardTourist ℤ)).1 rfl).1,
    (penalty_is_lower_clamp (some (⟨none⟩ : LocationUpdateData Unit))
      (⟨"Rohan Desai", "T-MORAI-250912-001", 62⟩ : DashboardTourist ℤ)).2 rfl⟩

/-- Counterexample to C14 as stated: at score -3 a response with a `policeAlert`
gives 0, which is larger. -/
theorem score_raised_counterexample :
    (onLocationUpdate (some ⟨some ()⟩)
        (⟨"Rohan Desai", "T-MORAI-250912-001", -3⟩ : DashboardTourist ℤ)).safetyScore = 0
      ∧ ¬ (onLocationUpdate (some ⟨some ()⟩)
        (⟨"Rohan Desai", "T-MORAI-250912-001", -3⟩ : DashboardTourist ℤ)).safetyScore ≤ -3 := by
  decide

/-- Witness for C14 (as amended) at the scores 62 and 3. -/
theorem score_not_raised_witness :
    (onLocationUpdate (some ⟨some ()⟩)
        (⟨"Rohan Desai", "T-MORAI-250912-001", 62⟩ : DashboardTourist ℤ)).safetyScore ≤ 62
      ∧ (onLocationUpdate (some ⟨some ()⟩)
        (⟨"Rohan Desai", "T-MORAI-250912-001", 3⟩ : DashboardTourist ℤ)).safetyScore ≤ 3 :=
  ⟨score_not_raised (some ⟨some ()⟩)
      (⟨"Rohan Desai", "T-MORAI-250912-001", 62⟩ : DashboardTourist ℤ) (by decide),
    score_not_raised (some ⟨some ()⟩)
      (⟨"Rohan Desai", "T-MORAI-250912-001", 3⟩ : DashboardTourist ℤ) (by decide)⟩

/-! ## Police dashboard: panic alerts and location upsert -/

theorem onPanicAlerts_eq (prev events : List StationAlert) :
    onPanicAlerts prev events = events.reverse.map panicEvent ++ prev := by
  induction events generalizing prev with
  | nil => rfl
  | cons e es ih =>
    simp only [onPanicAlerts, List.foldl_cons] at ih ⊢
    rw [ih (onPanicAlert e prev)]
    simp [onPanicAlert]

/-- C16: after `N` panic-alert events the list `criticalAlerts` is `N` entries
longer; its first `N` entries are the events in reverse order of arrival, each
with `isPanic = true` and its other fields as received, followed by the
previous entries unchanged.  Identical events are not merged. -/
theorem panic_alerts_never_deduplicated (prev events : List StationAlert) :
    (onPanicAlerts prev events).length = prev.length + events.length
      ∧ (onPanicAlerts prev events).take events.length = events.reverse.map panicEvent
      ∧ (onPanicAlerts prev events).drop events.length = prev
      ∧ ∀ a : StationAlert,
          (panicEvent a).isPanic = some true ∧ (panicEvent a).id = a.id
            ∧ (panicEvent a).touristName = a.touristName
            ∧ (panicEvent a).zoneName = a.zoneName
            ∧ (panicEvent a).createdAt = a.createdAt := by
  have hlen : (events.reverse.map panicEvent).length = events.length := by simp
  rw [onPanicAlerts_eq]
  refine ⟨by simp [Nat.add_comm], ?_, ?_, fun a => ⟨rfl, rfl, rfl, rfl, rfl⟩⟩
  · exact List.take_left' hlen
  · exact List.drop_left' hlen

/-- The map applied by the upsert when the id is already present. -/
theorem onTouristLocationUpdate_found (u : StationTourist) (prev : List StationTourist)
    (h : ∃ t ∈ prev, t.id = u.id) :
    onTouristLocationUpdate u prev
      = prev.map (fun t =>
          if t.id = u.id then { t with location := u.location, lastUpdated := u.lastUpdated }
          else t) := by
  unfold onTouristLocationUpdate
  cases hf : prev.find? (fun t => decide (t.id = u.id)) with
  | some x => rfl
  | none =>
    exfalso
    obtain ⟨t, ht, hid⟩ := h
    have := List.find?_eq_none.mp hf t ht
    simp [hid] at this

theorem onTouristLocationUpdate_absent (u : StationTourist) (prev : List StationTourist)
    (h : ¬ ∃ t ∈ prev, t.id = u.id) :
    onTouristLocationUpdate u prev = prev ++ [u] := by
  unfold onTouristLocationUpdate
  cases hf : prev.find? (fun t => decide (t.id = u.id)) with
  | none => rfl
  | some x =>
    exfalso
    have hx := List.find?_some hf
    have hm := List.mem_of_find?_eq_some hf
    exact h ⟨x, hm, by simpa using hx⟩

/-- C20: if some element of `tourists` has the id of the payload `u`, the
result has the same length, and position by position an element with that id
has `location` and `lastUpdated` replaced by those of `u` with its other fields
kept, and any other element is unchanged; otherwise the result is the old list
with `u` appended at the end. -/
theorem location_upsert (u : StationTourist) (prev : List StationTourist) :
    ((∃ t ∈ prev, t.id = u.id) →
        (onTouristLocationUpdate u prev).length = prev.length
          ∧ ∀ (i : Nat) (t : StationTourist), prev[i]? = some t →
              (t.id = u.id →
                (onTouristLocationUpdate u prev)[i]?
                  = some { id := t.id, name := t.name, touristId := t.touristId,
                           safetyScore := t.safetyScore, location := u.location,
                           lastUpdated := u.lastUpdated })
              ∧ (t.id ≠ u.id → (onTouristLocationUpdate u prev)[i]? = some t))
      ∧ ((¬ ∃ t ∈ prev, t.id = u.id) → onTouristLocationUpdate u prev = prev ++ [u]) := by
  refine ⟨fun h => ?_, fun h => onTouristLocationUpdate_absent u prev h⟩
  rw [onTouristLocationUpdate_found u prev h]
  refine ⟨by simp, fun i t hi => ⟨fun hid => ?_, fun hid => ?_⟩⟩
  · simp [List.getElem?_map, hi, hid]
  · simp [List.getElem?_map, hi, hid]

/-- Witness for C20: an update for a listed id and one for a new id. -/
theorem location_upsert_witness :
    ((onTouristLocationUpdate
        ⟨"t1", "", "", 0, ⟨[80, 13]⟩, "10:05"⟩
        [⟨"t1", "Rohan Desai", "T-MORAI-250912-001", 95, ⟨[79, 12]⟩, "10:00"⟩,
         ⟨"t2", "Asha Rao", "T-MORAI-250912-002", 80, ⟨[78, 11]⟩, "10:01"⟩]).length = 2
      ∧ (onTouristLocationUpdate
        ⟨"t1", "", "", 0, ⟨[80, 13]⟩, "10:05"⟩
        [⟨"t1", "Rohan Desai", "T-MORAI-250912-001", 95, ⟨[79, 12]⟩, "10:00"⟩,
         ⟨"t2", "Asha Rao", "T-MORAI-250912-002", 80, ⟨[78, 11]⟩, "10:01"⟩])[0]?
        = some ⟨"t1", "Rohan Desai", "T-MORAI-250912-001", 95, ⟨[80, 13]⟩, "10:05"⟩
      ∧ (onTouristLocationUpdate
        ⟨"t1", "", "", 0, ⟨[80, 13]⟩, "10:05"⟩
        [⟨"t1", "Rohan Desai", "T-MORAI-250912-001", 95, ⟨[79, 12]⟩, "10:00"⟩,
         ⟨"t2", "Asha Rao", "T-MORAI-250912-002", 80, ⟨[78, 11]⟩, "10:01"⟩])[1]?
        = some ⟨"t2", "Asha Rao", "T-MORAI-250912-002", 80, ⟨[78, 11]⟩, "10:01"⟩)
      ∧ onTouristLocationUpdate
        ⟨"t3", "Meera Nair", "T-MORAI-250912-003", 70, ⟨[80, 13]⟩, "10:05"⟩
        [⟨"t1", "Rohan Desai", "T-MORAI-250912-001", 95, ⟨[79, 12]⟩, "10:00"⟩]
      = [⟨"t1", "Rohan Desai", "T-MORAI-250912-001", 95, ⟨[79, 12]⟩, "10:00"⟩]
          ++ [⟨"t3", "Meera Nair", "T-MORAI-250912-003", 70, ⟨[80, 13]⟩, "10:05"⟩] :=
  have h := (location_upsert ⟨"t1", "", "", 0, ⟨[80, 13]⟩, "10:05"⟩
    [⟨"t1", "Rohan Desai", "T-MORAI-250912-001", 95, ⟨[79, 12]⟩, "10:00"⟩,
     ⟨"t2", "Asha Rao", "T-MORAI-250912-002", 80, ⟨[78, 11]⟩, "10:01"⟩]).1
    ⟨_, List.mem_cons_self _ _, rfl⟩
  ⟨⟨h.1, (h.2 0 _ rfl).1 rfl, (h.2 1 _ rfl).2 (by decide)⟩,
    (location_upsert ⟨"t3", "Meera Nair", "T-MORAI-250912-003", 70, ⟨[80, 13]⟩, "10:05"⟩
        [⟨"t1", "Rohan Desai", "T-MORAI-250912-001", 95, ⟨[79, 12]⟩, "10:00"⟩]).2
      (by decide)⟩

/-! ## Registration form validation -/

theorem setKey_ne_nil (obj : ErrorsObject) (key value : String) : setKey obj key value ≠ [] := by
  unfold setKey
  split_ifs with h
  · intro hm
    have : obj = [] := by simpa using hm
    subst this
    simp at h
  · simp

theorem objectKeys_length_eq_zero (obj : ErrorsObject) :
    ((objectKeys obj).length == 0) = true ↔ obj = [] := by
  simp [objectKeys]

/-- A conditional assignment leaves the object empty exactly when the object was
empty and the condition is false. -/
theorem ite_setKey_eq_nil (c : Prop) [Decidable c] (obj : ErrorsObject) (key value : String) :
    (if c then setKey obj key value else obj) = [] ↔ ¬ c ∧ obj = [] := by
  by_cases h : c
  · simp [h, setKey_ne_nil]
  · simp [h]

/-- The stored errors object is empty exactly for the complete forms. -/
theorem validateForm_errors_eq_nil (f : FormData) :
    (validateForm f).1 = [] ↔
      jsTrim f.fullName ≠ "" ∧ jsTrim f.passport ≠ "" ∧ jsTrim f.emergencyContact ≠ ""
        ∧ (∃ a d, f.arrivalDate = some a ∧ f.departureDate = some d ∧ a < d)
        ∧ f.consent = true := by
  simp only [validateForm, ite_setKey_eq_nil]
  rcases ha : f.arrivalDate with _ | a <;> rcases hd : f.departureDate with _ | d
  · simp [setKey_ne_nil, ite_setKey_eq_nil]
  · simp [setKey_ne_nil, ite_setKey_eq_nil]
  · simp [setKey_ne_nil, ite_setKey_eq_nil]
  · simp only [ite_setKey_eq_nil]
    simp
    tauto

/-- With equal dates, the stored message under `departureDate` is the one about
the order of the dates. -/
theorem validateForm_equal_dates (f : FormData) (a : Int)
    (ha : f.arrivalDate = some a) (hd : f.departureDate = some a) :
    getKey (validateForm f).1 "departureDate"
      = some "Departure date must be after arrival date." := by
  by_cases h1 : jsTrim f.fullName = "" <;> by_cases h2 : jsTrim f.passport = ""
    <;> by_cases h3 : jsTrim f.emergencyContact = "" <;> cases hc : f.consent
    <;> simp [validateForm, ha, hd, setKey, getKey, h1, h2, h3, hc]

/-- C19: `validateForm` returns true exactly for the complete forms (the three
text fields non-empty after trimming, both dates given with the departure
strictly later than the arrival, consent given), and exactly when the errors
object it stores has no keys; equal dates are rejected with the message
"Departure date must be after arrival date." -/
theorem validateForm_accepts_exactly_complete (f : FormData) :
    ((validateForm f).2 = true ↔
        jsTrim f.fullName ≠ "" ∧ jsTrim f.passport ≠ "" ∧ jsTrim f.emergencyContact ≠ ""
          ∧ (∃ a d, f.arrivalDate = some a ∧ f.departureDate = some d ∧ a < d)
          ∧ f.consent = true)
      ∧ ((validateForm f).2 = true ↔ objectKeys (validateForm f).1 = [])
      ∧ ∀ a : Int, f.arrivalDate = some a → f.departureDate = some a →
          (validateForm f).2 = false
            ∧ getKey (validateForm f).1 "departureDate"
                = some "Departure date must be after arrival date." := by
  have hret : (validateForm f).2 = ((objectKeys (validateForm f).1).length == 0) := rfl
  have hnil : (validateForm f).2 = true ↔ (validateForm f).1 = [] := by
    rw [hret]; exact objectKeys_length_eq_zero _
  refine ⟨hnil.trans (validateForm_errors_eq_nil f), ?_, fun a ha hd => ⟨?_, ?_⟩⟩
  · rw [hnil]; simp [objectKeys]
  · cases hv : (validateForm f).2 with
    | false => rfl
    | true =>
      exfalso
      obtain ⟨_, _, _, ⟨a', d', ha', hd', hlt⟩, _⟩ :=
        (hnil.trans (validateForm_errors_eq_nil f)).mp hv
      rw [ha] at ha'; rw [hd] at hd'
      cases ha'; cases hd'
      exact lt_irrefl _ hlt
  · exact validateForm_equal_dates f a ha hd

/-- Witness for C19: a complete form is accepted with an empty errors object;
the same form with equal dates is rejected. -/
theorem validateForm_accepts_exactly_complete_witness :
    (validateForm ⟨" John Doe ", "A12345678", some 1757635200000, some 1757721600000,
        "Jane Doe", true⟩).2 = true
      ∧ (validateForm ⟨" John Doe ", "A12345678", some 1757635200000, some 1757635200000,
        "Jane Doe", true⟩).2 = false
      ∧ getKey (validateForm ⟨" John Doe ", "A12345678", some 1757635200000,
          some 1757635200000, "Jane Doe", true⟩).1 "departureDate"
          = some "Departure date must be after arrival date." :=
  ⟨(validateForm_accepts_exactly_complete ⟨" John Doe ", "A12345678", some 1757635200000,
        some 1757721600000, "Jane Doe", true⟩).1.mpr
      ⟨by decide, by decide, by decide, ⟨_, _, rfl, rfl, by decide⟩, rfl⟩,
    ((validateForm_accepts_exactly_complete ⟨" John Doe ", "A12345678", some 1757635200000,
        some 1757635200000, "Jane Doe", true⟩).2.2 _ rfl rfl).1,
    ((validateForm_accepts_exactly_complete ⟨" John Doe ", "A12345678", some 1757635200000,
        some 1757635200000, "Jane Doe", true⟩).2.2 _ rfl rfl).2⟩

/-! ## Where the alerts of `SimulationProvider` go -/

section FanOut

variable {α : Type} [LinearOrder α]

theorem prepended_append {β : Type} (xs before : List β) : prepended before (xs ++ before) = xs := by
  simp [prepended]

/-- Every created alert is prepended to `touristAlerts`; only the critical one
is prepended to `policeAlerts`. -/
theorem simulationEffect_lists (zone : RiskZone α) (t : Tick α) (s : ProviderState α) :
    (simulationEffect zone t s).1.touristAlerts = (simulationEffect zone t s).2 ++ s.touristAlerts
      ∧ (simulationEffect zone t s).1.policeAlerts
          = (simulationEffect zone t s).2.filter (fun a => decide (a.type = "critical"))
              ++ s.policeAlerts := by
  simp only [simulationEffect]
  split_ifs <;> simp [providerCriticalAlert, warningAlert]

theorem simulationTouristAdded_eq (zone : RiskZone α) (t : Tick α) (s : ProviderState α) :
    simulationTouristAdded zone t s = (simulationEffect zone t s).2 := by
  unfold simulationTouristAdded
  rw [(simulationEffect_lists zone t s).1, prepended_append]

theorem simulationPoliceAdded_eq (zone : RiskZone α) (t : Tick α) (s : ProviderState α) :
    simulationPoliceAdded zone t s
      = (simulationEffect zone t s).2.filter (fun a => decide (a.type = "critical")) := by
  unfold simulationPoliceAdded
  rw [(simulationEffect_lists zone t s).2, prepended_append]

/-- C15 (as amended): every alert the check creates is prepended to
`touristAlerts`, and exactly the critical ones are also prepended to
`policeAlerts`; hence, if `policeAlerts` holds the critical alerts of
`touristAlerts` before a sequence of positions (as with both lists empty), it
does so afterwards. -/
theorem fan_out_by_type (zone : RiskZone α) (s : ProviderState α) (ts : List (Tick α)) :
    (∀ t : Tick α,
        (simulationEffect zone t s).1.touristAlerts
            = (simulationEffect zone t s).2 ++ s.touristAlerts
          ∧ (simulationEffect zone t s).1.policeAlerts
            = (simulationEffect zone t s).2.filter (fun a => decide (a.type = "critical"))
                ++ s.policeAlerts)
      ∧ (s.policeAlerts = s.touristAlerts.filter (fun a => decide (a.type = "critical")) →
          (simulationRun zone s ts).policeAlerts
            = (simulationRun zone s ts).touristAlerts.filter
                (fun a => decide (a.type = "critical"))) := by
  refine ⟨fun t => simulationEffect_lists zone t s, ?_⟩
  induction ts generalizing s with
  | nil => intro h; exact h
  | cons t ts ih =>
    intro h
    apply ih (simulationEffect zone t s).1
    rw [(simulationEffect_lists zone t s).1, (simulationEffect_lists zone t s).2, h,
      List.filter_append]

end FanOut

/-- Counterexample to C15 as stated: from the initial state a position at 700 m
creates a warning alert that is added to `touristAlerts` and not to
`policeAlerts`, so the two lists differ. -/
theorem fan_out_counterexample :
    (simulationEffect riskZone (tickAt 700) initialProviderState).2
        = [warningAlert riskZone (tickAt 700)]
      ∧ (simulationEffect riskZone (tickAt 700) initialProviderState).1.touristAlerts
        = [warningAlert riskZone (tickAt 700)]
      ∧ (simulationEffect riskZone (tickAt 700) initialProviderState).1.policeAlerts = []
      ∧ (simulationEffect riskZone (tickAt 700) initialProviderState).1.touristAlerts
        ≠ (simulationEffect riskZone (tickAt 700) initialProviderState).1.policeAlerts := by
  decide

/-- Witness for C15 (as amended): the walk 5000, 700, 300 from empty lists. -/
theorem fan_out_by_type_witness :
    initialProviderState.policeAlerts
        = initialProviderState.touristAlerts.filter (fun a => decide (a.type = "critical"))
      ∧ (simulationRun riskZone initialProviderState
          [tickAt 5000, tickAt 700, tickAt 300]).policeAlerts
        = (simulationRun riskZone initialProviderState
          [tickAt 5000, tickAt 700, tickAt 300]).touristAlerts.filter
            (fun a => decide (a.type = "critical")) :=
  ⟨rfl, (fan_out_by_type riskZone initialProviderState
    [tickAt 5000, tickAt 700, tickAt 300]).2 rfl⟩

/-! ## Positions outside the coordinate range -/

/-- The position `shiftedCentre` is out of range and at distance 0 from the
centre of `riskZone`. -/
theorem getDistance_shiftedCentre :
    getDistance shiftedCentre.toReal riskZone.toReal.center = 0 := by
  have hlat : ((13.1780 : ℚ) : ℝ) - ((13.1780 : ℚ) : ℝ) = 0 := sub_self _
  have hlng : (((80.1750 : ℚ) : ℝ) - ((440.1750 : ℚ) : ℝ)) * Real.pi / 180 / 2 = -Real.pi := by
    norm_num
    ring
  have h1 : (⟨1, 0⟩ : ℂ) = 1 := rfl
  simp only [getDistance, shiftedCentre, riskZone, RiskZone.toReal, LatLng.toReal]
  rw [hlat, hlng]
  simp [atan2, h1]

/-- C17 (as amended): the alert check has no range check.  Every position,
whatever its latitude and longitude, becomes the stored position of the
tourist, and when its `getDistance` to the zone centre is at most
`criticalRadius` and `triggeredCritical` is unset, it creates the critical
alert, sets the flag and prepends the alert to both lists. -/
theorem out_of_range_position_processed (zone : RiskZone ℝ) (now : Nat)
    (newPosition : LatLng ℝ) (s : ProviderState ℝ) :
    (simulationEffectAt zone now newPosition s).1.tourist.position = newPosition
      ∧ (getDistance newPosition zone.center ≤ zone.criticalRadius →
          s.triggeredCritical = false →
          (simulationEffectAt zone now newPosition s).1.triggeredCritical = true
            ∧ (simulationEffectAt zone now newPosition s).1.touristAlerts
                = providerCriticalAlert zone
                    { now := now, newPosition := newPosition,
                      distance := getDistance newPosition zone.center } :: s.touristAlerts
            ∧ (simulationEffectAt zone now newPosition s).1.policeAlerts
                = providerCriticalAlert zone
                    { now := now, newPosition := newPosition,
                      distance := getDistance newPosition zone.center } :: s.policeAlerts) := by
  refine ⟨?_, fun hd hc => ?_⟩
  · simp only [simulationEffectAt, simulationEffect]
    split_ifs <;> rfl
  · simp [simulationEffectAt, simulationEffect, hd, hc]

/-- Counterexample to C17 as stated: the position lat 13.1780, lng 440.1750 has
`|lng| > 180`, yet from the initial state the check replaces the stored
position, sets `triggeredCritical` and adds an alert to both lists. -/
theorem out_of_range_counterexample :
    180 < |shiftedCentre.toReal.lng|
      ∧ (simulationEffectAt riskZone.toReal 0 shiftedCentre.toReal
          providerInitialState).1.tourist.position ≠ providerInitialState.tourist.position
      ∧ providerInitialState.triggeredCritical = false
      ∧ (simulationEffectAt riskZone.toReal 0 shiftedCentre.toReal
          providerInitialState).1.triggeredCritical = true
      ∧ (simulationEffectAt riskZone.toReal 0 shiftedCentre.toReal
          providerInitialState).1.touristAlerts ≠ providerInitialState.touristAlerts
      ∧ (simulationEffectAt riskZone.toReal 0 shiftedCentre.toReal
          providerInitialState).1.policeAlerts ≠ providerInitialState.policeAlerts := by
  have hd : getDistance shiftedCentre.toReal riskZone.toReal.center
      ≤ riskZone.toReal.criticalRadius := by
    rw [getDistance_shiftedCentre]
    simp [RiskZone.toReal, riskZone]
  have hpos : (simulationEffectAt riskZone.toReal 0 shiftedCentre.toReal
      providerInitialState).1.tourist.position = shiftedCentre.toReal := by
    simp only [simulationEffectAt, simulationEffect]
    split_ifs <;> rfl
  have hfire : (simulationEffectAt riskZone.toReal 0 shiftedCentre.toReal
      providerInitialState).1.triggeredCritical = true
      ∧ (simulationEffectAt riskZone.toReal 0 shiftedCentre.toReal
          providerInitialState).1.touristAlerts
        = providerCriticalAlert riskZone.toReal
            { now := 0, newPosition := shiftedCentre.toReal,
              distance := getDistance shiftedCentre.toReal riskZone.toReal.center }
            :: providerInitialState.touristAlerts
      ∧ (simulationEffectAt riskZone.toReal 0 shiftedCentre.toReal
          providerInitialState).1.policeAlerts
        = providerCriticalAlert riskZone.toReal
            { now := 0, newPosition := shiftedCentre.toReal,
              distance := getDistance shiftedCentre.toReal riskZone.toReal.center }
            :: providerInitialState.policeAlerts := by
    simp [simulationEffectAt, simulationEffect, hd, providerInitialState]
  refine ⟨?_, ?_, rfl, hfire.1, ?_, ?_⟩
  · simp only [shiftedCentre, LatLng.toReal]
    rw [abs_of_pos (by norm_num)]
    norm_num
  · rw [hpos]
    intro h
    have hlat := congrArg LatLng.lat h
    simp only [shiftedCentre, LatLng.toReal, providerInitialState, touristPath] at hlat
    norm_num at hlat
  · rw [hfire.2.1]; simp [providerInitialState]
  · rw [hfire.2.2]; simp [providerInitialState]

/-- Witness for C17 (as amended) at lat 13.1780, lng 440.1750 from the initial
state. -/
theorem out_of_range_position_processed_witness :
    getDistance shiftedCentre.toReal riskZone.toReal.center ≤ riskZone.toReal.criticalRadius
      ∧ providerInitialState.triggeredCritical = false
      ∧ (simulationEffectAt riskZone.toReal 0 shiftedCentre.toReal
          providerInitialState).1.tourist.position = shiftedCentre.toReal
      ∧ (simulationEffectAt riskZone.toReal 0 shiftedCentre.toReal
          providerInitialState).1.triggeredCritical = true :=
  have hd : getDistance shiftedCentre.toReal riskZone.toReal.center
      ≤ riskZone.toReal.criticalRadius := by
    rw [getDistance_shiftedCentre]
    simp [RiskZone.toReal, riskZone]
  ⟨hd, rfl,
    (out_of_range_position_processed riskZone.toReal 0 shiftedCentre.toReal
      providerInitialState).1,
    ((out_of_range_position_processed riskZone.toReal 0 shiftedCentre.toReal
      providerInitialState).2 hd rfl).1⟩

/-! ## The inlined pages against the shared provider -/

section Refinement

variable {α : Type} [LinearOrder α]

/-- One execution: `TouristAlert` creates alerts of the same content as
`SimulationProvider` prepends to `touristAlerts`, and the flags stay equal. -/
theorem touristAlertEffect_matches (zone zone' : RiskZone α) (t t' : Tick α)
    (s : ProviderState α) (u : TouristAlertState α)
    (hn : zone'.name = zone.name) (hwr : zone'.warningRadius = zone.warningRadius)
    (hcr : zone'.criticalRadius = zone.criticalRadius) (hd : t'.distance = t.distance)
    (hw : u.triggeredWarning = s.triggeredWarning)
    (hc : u.triggeredCritical = s.triggeredCritical) :
    List.Forall₂ sameContent (touristAlertEffect zone' t' u).2 (simulationTouristAdded zone t s)
      ∧ (touristAlertEffect zone' t' u).1.triggeredWarning
          = (simulationEffect zone t s).1.triggeredWarning
      ∧ (touristAlertEffect zone' t' u).1.triggeredCritical
          = (simulationEffect zone t s).1.triggeredCritical := by
  rw [simulationTouristAdded_eq]
  simp only [touristAlertEffect, simulationEffect, hd, hwr, hcr, hw, hc]
  split_ifs <;>
    simp [sameContent, touristCriticalAlert, providerCriticalAlert, warningAlert, hn]

/-- One execution: `PoliceAlert` creates a critical alert exactly when
`SimulationProvider` prepends one to `policeAlerts`. -/
theorem policeAlertEffect_matches (zone : RiskZone α) (zone' : PoliceRiskZone α) (t t' : Tick α)
    (s : ProviderState α) (u : PoliceAlertState α)
    (hcr : zone'.criticalRadius = zone.criticalRadius) (hd : t'.distance = t.distance)
    (hp : t'.newPosition = t.newPosition)
    (hc : u.triggeredCritical = s.triggeredCritical) :
    List.Forall₂ sameCritical (policeAlertEffect zone' t' u).2 (simulationPoliceAdded zone t s)
      ∧ (policeAlertEffect zone' t' u).1.triggeredCritical
          = (simulationEffect zone t s).1.triggeredCritical := by
  rw [simulationPoliceAdded_eq]
  simp only [policeAlertEffect, simulationEffect, hd, hcr, hc]
  split_ifs <;>
    simp [sameCritical, policeCriticalAlert, providerCriticalAlert, warningAlert, hp]

end Refinement

theorem touristAlertTrace_matches (steps : List WalkStep) (s : ProviderState ℝ)
    (u : TouristAlertState ℝ) (hw : u.triggeredWarning = s.triggeredWarning)
    (hc : u.triggeredCritical = s.triggeredCritical) :
    List.Forall₂ (List.Forall₂ sameContent)
      (touristAlertTrace TouristAlert.riskZone.toReal u (steps.map TouristAlert.tick))
      (simulationTouristAddedTrace riskZone.toReal s (steps.map providerTick)) := by
  induction steps generalizing s u with
  | nil => exact List.Forall₂.nil
  | cons st steps ih =>
    have h := touristAlertEffect_matches riskZone.toReal TouristAlert.riskZone.toReal
      (providerTick st) (TouristAlert.tick st) s u rfl rfl rfl rfl hw hc
    simp only [List.map_cons, touristAlertTrace, simulationTouristAddedTrace]
    exact List.Forall₂.cons h.1 (ih _ _ h.2.1 h.2.2)

theorem policeAlertTrace_matches (steps : List WalkStep) (s : ProviderState ℝ)
    (u : PoliceAlertState ℝ) (hc : u.triggeredCritical = s.triggeredCritical) :
    List.Forall₂ (List.Forall₂ sameCritical)
      (policeAlertTrace PoliceAlert.riskZone.toReal u (steps.map PoliceAlert.tick))
      (simulationPoliceAddedTrace riskZone.toReal s (steps.map providerTick)) := by
  induction steps generalizing s u with
  | nil => exact List.Forall₂.nil
  | cons st steps ih =>
    have h := policeAlertEffect_matches riskZone.toReal PoliceAlert.riskZone.toReal
      (providerTick st) (PoliceAlert.tick st) s u rfl rfl rfl hc
    simp only [List.map_cons, policeAlertTrace, simulationPoliceAddedTrace]
    exact List.Forall₂.cons h.1 (ih _ _ h.2)

/-- C18: for every sequence of path indices processed from the initial states,
step by step `TouristAlert` creates alerts of the same type, title and message
as `SimulationProvider` prepends to `touristAlerts`, and `PoliceAlert` creates a
critical alert exactly where `SimulationProvider` prepends one to
`policeAlerts`; the three `getDistance` definitions, `touristPath` constants and
zone centres and radii coincide. -/
theorem inlined_pages_refine_provider (steps : List WalkStep) :
    List.Forall₂ (List.Forall₂ sameContent)
        (touristAlertTrace TouristAlert.riskZone.toReal TouristAlert.initialState
          (steps.map TouristAlert.tick))
        (simulationTouristAddedTrace riskZone.toReal providerInitialState
          (steps.map providerTick))
      ∧ List.Forall₂ (List.Forall₂ sameCritical)
        (policeAlertTrace PoliceAlert.riskZone.toReal PoliceAlert.initialState
          (steps.map PoliceAlert.tick))
        (simulationPoliceAddedTrace riskZone.toReal providerInitialState
          (steps.map providerTick))
      ∧ TouristAlert.getDistance = getDistance
      ∧ PoliceAlert.getDistance = getDistance
      ∧ TouristAlert.touristPath = touristPath
      ∧ PoliceAlert.touristPath = touristPath
      ∧ TouristAlert.riskZone = riskZone
      ∧ PoliceAlert.riskZone.center = riskZone.center
      ∧ PoliceAlert.riskZone.criticalRadius = riskZone.criticalRadius :=
  ⟨touristAlertTrace_matches steps providerInitialState TouristAlert.initialState rfl rfl,
    policeAlertTrace_matches steps providerInitialState PoliceAlert.initialState rfl,
    rfl, rfl, rfl, rfl, rfl, rfl, rfl⟩

/-! ## SafetyCard bands -/

/-- C21: `SafetyCard` shows Good (green) exactly for `score ≥ 80`, Caution
(yellow) exactly for `50 < score < 80` and High Risk (red) exactly for
`score ≤ 50`; the three outputs are distinct, so exactly one band applies, with
80 in Good and 50 in High Risk. -/
theorem safetyCard_bands {α : Type} [LinearOrderedRing α] (score : α) :
    (safetyCardStatus score = ("text-green-500", "Safety Status: Good") ↔ 80 ≤ score)
      ∧ (safetyCardStatus score = ("text-yellow-500", "Safety Status: Caution")
          ↔ 50 < score ∧ score < 80)
      ∧ (safetyCardStatus score = ("text-red-500", "Safety Status: High Risk") ↔ score ≤ 50)
      ∧ (safetyCardStatus score = ("text-green-500", "Safety Status: Good")
          ∨ safetyCardStatus score = ("text-yellow-500", "Safety Status: Caution")
          ∨ safetyCardStatus score = ("text-red-500", "Safety Status: High Risk"))
      ∧ safetyCardStatus (80 : α) = ("text-green-500", "Safety Status: Good")
      ∧ safetyCardStatus (50 : α) = ("text-red-500", "Safety Status: High Risk") := by
  have h5080 : (50 : α) < 80 := by norm_num
  refine ⟨?_, ?_, ?_, ?_, ?_, ?_⟩
  · unfold safetyCardStatus
    split_ifs with h1 h2 <;> simp [h1]
  · unfold safetyCardStatus
    split_ifs with h1 h2
    · simp [not_lt.mpr h1]
    · simp [h2, lt_of_not_le h1]
    · simp [h2]
  · unfold safetyCardStatus
    split_ifs with h1 h2
    · simp [not_le.mpr (lt_of_lt_of_le h5080 h1)]
    · simp [not_le.mpr h2]
    · simp [not_lt.mp h2]
  · unfold safetyCardStatus
    split_ifs <;> simp
  · simp [safetyCardStatus]
  · simp [safetyCardStatus, not_le.mpr h5080]

/-! ## Range of the haversine formula -/

theorem getDistance_eq_arcsin (p1 p2 : LatLng ℝ) :
    getDistance p1 p2 = 6371e3 * (2 * Real.arcsin (Real.sqrt (haversineA p1 p2))) := by
  have h := haversineA_mem_unit p1 p2
  rw [getDistance_eq_atan2, atan2_sqrt_eq_arcsin (haversineA p1 p2) h.1 h.2]

/-- At the antipodal pairs `(x, 0)` and `(-x, 180)` the exact value of `a` is 1,
so `1 - a` is exactly 0, the edge of the domain of the square root. -/
theorem haversineA_antipodal (x : ℝ) :
    haversineA { lat := x, lng := 0 } { lat := -x, lng := 180 } = 1 := by
  have h1 : (-x - x) * Real.pi / 180 / 2 = -(x * Real.pi / 180) := by ring
  have h2 : ((180 : ℝ) - 0) * Real.pi / 180 / 2 = Real.pi / 2 := by ring
  have h3 : -x * Real.pi / 180 = -(x * Real.pi / 180) := by ring
  simp only [haversineA]
  rw [h1, h2, h3, Real.sin_neg, Real.cos_neg, Real.sin_pi_div_two]
  nlinarith [Real.sin_sq_add_cos_sq (x * Real.pi / 180)]

/-- In exact real arithmetic the intermediate `a` is in `[0, 1]` and the
distance in `[0, π * 6371000]`.  This is a fact about the real-number reading
only: it gives no bound on the rounded values computed in double precision,
where `a` can come out above 1 at antipodal pairs. -/
theorem haversine_in_range (p1 p2 : LatLng ℝ) :
    0 ≤ haversineA p1 p2 ∧ haversineA p1 p2 ≤ 1 ∧ 0 ≤ 1 - haversineA p1 p2
      ∧ 0 ≤ getDistance p1 p2 ∧ getDistance p1 p2 ≤ Real.pi * 6371000 := by
  have h := haversineA_mem_unit p1 p2
  have h0 : 0 ≤ Real.arcsin (Real.sqrt (haversineA p1 p2)) :=
    Real.arcsin_nonneg.mpr (Real.sqrt_nonneg _)
  have h1 : Real.arcsin (Real.sqrt (haversineA p1 p2)) ≤ Real.pi / 2 :=
    Real.arcsin_le_pi_div_two _
  refine ⟨h.1, h.2, by linarith [h.2], ?_, ?_⟩
  · rw [getDistance_eq_arcsin]
    positivity
  · rw [getDistance_eq_arcsin]
    norm_num
    nlinarith

/-! ## What reaches the police list -/

section PoliceList

variable {α : Type} [LinearOrder α]

/-- A critical alert created by the provider carries a position. -/
theorem simulationEffect_critical_has_position (zone : RiskZone α) (t : Tick α)
    (s : ProviderState α) :
    ∀ a ∈ (simulationEffect zone t s).2, a.type = "critical" → a.position.isSome = true := by
  simp only [simulationEffect]
  split_ifs <;> simp [providerCriticalAlert, warningAlert]

/-- The length of `policeAlerts` and the critical budget add up to a constant. -/
theorem simulationEffect_police_length (zone : RiskZone α) (t : Tick α) (s : ProviderState α) :
    (simulationEffect zone t s).1.policeAlerts.length
        + criticalBudget (simulationEffect zone t s).1.triggeredCritical
      = s.policeAlerts.length + criticalBudget s.triggeredCritical := by
  simp only [simulationEffect]
  split_ifs with h1 h2
  · simp [criticalBudget, h1.2]
  · simp
  · simp

theorem simulationRun_police_length (zone : RiskZone α) (s : ProviderState α)
    (ts : List (Tick α)) :
    (simulationRun zone s ts).policeAlerts.length
        + criticalBudget (simulationRun zone s ts).triggeredCritical
      = s.policeAlerts.length + criticalBudget s.triggeredCritical := by
  induction ts generalizing s with
  | nil => rfl
  | cons t ts ih =>
    simp only [simulationRun]
    rw [ih, simulationEffect_police_length]

theorem simulationRun_police_filter (zone : RiskZone α) (s : ProviderState α)
    (ts : List (Tick α))
    (h : s.policeAlerts = s.touristAlerts.filter (fun a => decide (a.type = "critical"))) :
    (simulationRun zone s ts).policeAlerts
      = (simulationRun zone s ts).touristAlerts.filter
          (fun a => decide (a.type = "critical")) := by
  induction ts generalizing s with
  | nil => exact h
  | cons t ts ih =>
    apply ih (simulationEffect zone t s).1
    rw [(simulationEffect_lists zone t s).1, (simulationEffect_lists zone t s).2, h,
      List.filter_append]

theorem simulationRun_police_position (zone : RiskZone α) (s : ProviderState α)
    (ts : List (Tick α)) (h : ∀ a ∈ s.policeAlerts, a.position.isSome = true) :
    ∀ a ∈ (simulationRun zone s ts).policeAlerts, a.position.isSome = true := by
  induction ts generalizing s with
  | nil => exact h
  | cons t ts ih =>
    apply ih (simulationEffect zone t s).1
    intro a ha
    rw [(simulationEffect_lists zone t s).2, List.mem_append, List.mem_filter] at ha
    rcases ha with ⟨hm, hty⟩ | hold
    · exact simulationEffect_critical_has_position zone t s a hm (by simpa using hty)
    · exact h a hold

/-- C24: after every sequence of positions processed from empty lists, every
element of `policeAlerts` has type critical and carries a position,
`policeAlerts` is a sublist of `touristAlerts`, and it has at most one element. -/
theorem police_only_critical (zone : RiskZone α) (s : ProviderState α) (ts : List (Tick α)) :
    s.touristAlerts = [] → s.policeAlerts = [] →
    (∀ a ∈ (simulationRun zone s ts).policeAlerts,
        a.type = "critical" ∧ a.position.isSome = true)
      ∧ ((simulationRun zone s ts).policeAlerts).Sublist (simulationRun zone s ts).touristAlerts
      ∧ (simulationRun zone s ts).policeAlerts.length ≤ 1 := by
  intro ht hp
  have hf := simulationRun_police_filter zone s ts (by rw [hp, ht]; rfl)
  have hpos := simulationRun_police_position zone s ts (by rw [hp]; simp)
  have hlen := simulationRun_police_length zone s ts
  have hb := criticalBudget_le_one s.triggeredCritical
  refine ⟨fun a ha => ⟨?_, hpos a ha⟩, ?_, ?_⟩
  · rw [hf, List.mem_filter] at ha
    simpa using ha.2
  · rw [hf]
    exact List.filter_sublist _
  · rw [hp] at hlen
    simp only [List.length_nil] at hlen
    omega

end PoliceList

/-- Witness for C24: the walk 5000, 700, 300, 300 from the initial state leaves
one critical alert with a position in `policeAlerts`. -/
theorem police_only_critical_witness :
    initialProviderState.touristAlerts = [] ∧ initialProviderState.policeAlerts = []
      ∧ (∀ a ∈ (simulationRun riskZone initialProviderState
            [tickAt 5000, tickAt 700, tickAt 300, tickAt 300]).policeAlerts,
          a.type = "critical" ∧ a.position.isSome = true)
      ∧ ((simulationRun riskZone initialProviderState
            [tickAt 5000, tickAt 700, tickAt 300, tickAt 300]).policeAlerts).Sublist
          (simulationRun riskZone initialProviderState
            [tickAt 5000, tickAt 700, tickAt 300, tickAt 300]).touristAlerts
      ∧ (simulationRun riskZone initialProviderState
            [tickAt 5000, tickAt 700, tickAt 300, tickAt 300]).policeAlerts.length ≤ 1 :=
  ⟨rfl, rfl, police_only_critical riskZone initialProviderState
    [tickAt 5000, tickAt 700, tickAt 300, tickAt 300] rfl rfl⟩

/-! ## Portal links against the declared routes -/

/-- C25 (evaluation of the code): none of the three portal link targets of the
landing page matches a route declared in `App`, while the routes of the pages
they are meant for, and the links of the tourist dashboard, do match. -/
theorem portal_links_match_no_route :
    portalLinks.map matchingRoutes = [[], [], []]
      ∧ matchingRoutes "/tourist/dashboard/T-MORAI-250912-001"
          = ["/tourist/dashboard/:touristId"]
      ∧ matchingRoutes "/police/dashboard/1" = ["/police/dashboard/:stationId"]
      ∧ (dashboardLinks "T-MORAI-250912-001").map matchingRoutes
          = [["/tourist/tracking"], ["/tourist/id/:touristId"]] := by
  decide

/-! ## Uniqueness of ids under the location upsert -/

theorem onTouristLocationUpdate_found_ids (u : StationTourist) (prev : List StationTourist)
    (h : ∃ t ∈ prev, t.id = u.id) :
    (onTouristLocationUpdate u prev).map (fun t => t.id) = prev.map (fun t => t.id) := by
  rw [onTouristLocationUpdate_found u prev h, List.map_map]
  apply List.map_congr_left
  intro t _
  simp only [Function.comp]
  split_ifs <;> rfl

theorem countP_id_eq_count (u : StationTourist) (l : List StationTourist) :
    l.countP (fun t => decide (t.id = u.id)) = (l.map (fun t => t.id)).count u.id := by
  induction l with
  | nil => rfl
  | cons t ts ih =>
    by_cases h : t.id = u.id
    · simp [List.countP_cons, List.count_cons, h, ih]
    · simp [List.countP_cons, List.count_cons, h, ih]

/-- C26: if the ids of `tourists` are pairwise distinct before a location update
with payload `u`, they are pairwise distinct afterwards and exactly one element
has the id of `u`. -/
theorem location_upsert_keeps_ids_unique (u : StationTourist) (prev : List StationTourist) :
    (prev.map (fun t => t.id)).Nodup →
    ((onTouristLocationUpdate u prev).map (fun t => t.id)).Nodup
      ∧ (onTouristLocationUpdate u prev).countP (fun t => decide (t.id = u.id)) = 1 := by
  intro hnd
  rw [countP_id_eq_count]
  by_cases h : ∃ t ∈ prev, t.id = u.id
  · rw [onTouristLocationUpdate_found_ids u prev h]
    refine ⟨hnd, List.count_eq_one_of_mem hnd ?_⟩
    obtain ⟨t, ht, hid⟩ := h
    exact List.mem_map.mpr ⟨t, ht, hid⟩
  · have hnot : u.id ∉ prev.map (fun t => t.id) := by
      intro hm
      obtain ⟨t, ht, hid⟩ := List.mem_map.mp hm
      exact h ⟨t, ht, hid⟩
    rw [onTouristLocationUpdate_absent u prev h, List.map_append]
    refine ⟨?_, ?_⟩
    · rw [List.nodup_append]
      refine ⟨hnd, List.nodup_singleton _, ?_⟩
      intro a ha hb
      simp only [List.map_cons, List.map_nil, List.mem_singleton] at hb
      exact hnot (hb ▸ ha)
    · rw [List.count_append, List.count_eq_zero_of_not_mem hnot]
      simp

/-- Witness for C26: an update for a listed id and one for a new id. -/
theorem location_upsert_keeps_ids_unique_witness :
    ((onTouristLocationUpdate
          ⟨"t1", "", "", 0, ⟨[80, 13]⟩, "10:05"⟩
          [⟨"t1", "Rohan Desai", "T-MORAI-250912-001", 95, ⟨[79, 12]⟩, "10:00"⟩,
           ⟨"t2", "Asha Rao", "T-MORAI-250912-002", 80, ⟨[78, 11]⟩, "10:01"⟩]).map
        (fun t => t.id)).Nodup
      ∧ ((onTouristLocationUpdate
          ⟨"t3", "Meera Nair", "T-MORAI-250912-003", 70, ⟨[80, 13]⟩, "10:05"⟩
          [⟨"t1", "Rohan Desai", "T-MORAI-250912-001", 95, ⟨[79, 12]⟩, "10:00"⟩]).countP
        (fun t => decide (t.id = "t3"))) = 1 :=
  ⟨(location_upsert_keeps_ids_unique ⟨"t1", "", "", 0, ⟨[80, 13]⟩, "10:05"⟩
      [⟨"t1", "Rohan Desai", "T-MORAI-250912-001", 95, ⟨[79, 12]⟩, "10:00"⟩,
       ⟨"t2", "Asha Rao", "T-MORAI-250912-002", 80, ⟨[78, 11]⟩, "10:01"⟩]
      (by decide)).1,
    (location_upsert_keeps_ids_unique
      ⟨"t3", "Meera Nair", "T-MORAI-250912-003", 70, ⟨[80, 13]⟩, "10:05"⟩
      [⟨"t1", "Rohan Desai", "T-MORAI-250912-001", 95, ⟨[79, 12]⟩, "10:00"⟩]
      (by decide)).2⟩

/-! ## The panic button -/

section Panic

variable {α : Type}

theorem handlePanicRequests_located (touristId : String) (s : PanicState α) (loc : LatLng α)
    (h : s.currentLocation = some loc) (oks : List Bool) :
    handlePanicRequests touristId s oks
      = List.replicate oks.length
          { url := "/api/panic", touristId := touristId, lat := loc.lat, lng := loc.lng } := by
  induction oks generalizing s with
  | nil => rfl
  | cons ok rest ih =>
    have hs : (handlePanic touristId ok s).state.currentLocation = some loc := by
      simp [handlePanic, h]
    have hr : (handlePanic touristId ok s).requests
        = [{ url := "/api/panic", touristId := touristId, lat := loc.lat, lng := loc.lng }] := by
      simp [handlePanic, h]
    simp only [handlePanicRequests, List.length_cons, List.replicate_succ]
    rw [hr, ih _ hs]
    rfl

/-- C27: without a current location `handlePanic` sends no request and leaves
`showPanicModal` and `panicStatus` as they were; with a current location every
call sends exactly one request to `/api/panic` carrying the `touristId` and the
current `lat` and `lng`, however many calls came before. -/
theorem panic_needs_location (touristId : String) (ok : Bool) (s : PanicState α) :
    (s.currentLocation = none →
        (handlePanic touristId ok s).requests = []
          ∧ (handlePanic touristId ok s).state.showPanicModal = s.showPanicModal
          ∧ (handlePanic touristId ok s).state.panicStatus = s.panicStatus)
      ∧ (∀ loc : LatLng α, s.currentLocation = some loc →
          (handlePanic touristId ok s).requests
              = [{ url := "/api/panic", touristId := touristId,
                   lat := loc.lat, lng := loc.lng }]
            ∧ ∀ oks : List Bool,
                handlePanicRequests touristId s oks
                  = List.replicate oks.length
                      { url := "/api/panic", touristId := touristId,
                        lat := loc.lat, lng := loc.lng }) := by
  refine ⟨fun h => ?_, fun loc h => ⟨?_, fun oks => ?_⟩⟩
  · simp [handlePanic, h]
  · simp [handlePanic, h]
  · exact handlePanicRequests_located touristId s loc h oks

end Panic

/-- Witness for C27: a call without a location, and three calls with one. -/
theorem panic_needs_location_witness :
    (handlePanic "T-MORAI-250912-001" true
        (⟨none, false, ""⟩ : PanicState ℤ)).requests = []
      ∧ (handlePanic "T-MORAI-250912-001" true
        (⟨none, false, ""⟩ : PanicState ℤ)).state.showPanicModal = false
      ∧ handlePanicRequests "T-MORAI-250912-001"
          (⟨some ⟨13, 80⟩, false, ""⟩ : PanicState ℤ) [true, false, true]
        = List.replicate 3 ⟨"/api/panic", "T-MORAI-250912-001", 13, 80⟩ :=
  ⟨((panic_needs_location "T-MORAI-250912-001" true
      (⟨none, false, ""⟩ : PanicState ℤ)).1 rfl).1,
    ((panic_needs_location "T-MORAI-250912-001" true
      (⟨none, false, ""⟩ : PanicState ℤ)).1 rfl).2.1,
    ((panic_needs_location "T-MORAI-250912-001" true
      (⟨some ⟨13, 80⟩, false, ""⟩ : PanicState ℤ)).2 ⟨13, 80⟩ rfl).2 [true, false, true]⟩

/-! ## Numeric bounds on `getDistance` -/

/-- For small angles `sin² x` is at least `99/100 · x²`. -/
theorem sin_sq_lower (x : ℝ) (hx : |x| ≤ 1 / 10) : 99 / 100 * x ^ 2 ≤ Real.sin x ^ 2 := by
  have key : ∀ y : ℝ, 0 < y → y ≤ 1 / 10 → 99 / 100 * y ^ 2 ≤ Real.sin y ^ 2 := by
    intro y hy0 hy1
    have h1 : y - y ^ 3 / 4 < Real.sin y := Real.sin_gt_sub_cube hy0 (by linarith)
    have h2 : 0 ≤ y - y ^ 3 / 4 := by nlinarith [sq_nonneg y, mul_pos hy0 hy0]
    have h3 : (y - y ^ 3 / 4) ^ 2 ≤ Real.sin y ^ 2 := by
      exact pow_le_pow_left₀ h2 (le_of_lt h1) 2
    have h4 : 99 / 100 * y ^ 2 ≤ (y - y ^ 3 / 4) ^ 2 := by
      have hy2 : y ^ 2 ≤ 1 / 100 := by nlinarith
      have e : (y - y ^ 3 / 4) ^ 2 = y ^ 2 * (1 - y ^ 2 / 4) ^ 2 := by ring
      rw [e]
      have h5 : 99 / 100 ≤ (1 - y ^ 2 / 4) ^ 2 := by nlinarith [sq_nonneg (y ^ 2)]
      nlinarith [sq_nonneg y]
    linarith
  rcases lt_trichotomy x 0 with h | h | h
  · have := key (-x) (by linarith) (by rw [abs_of_neg h] at hx; exact hx)
    simpa [Real.sin_neg] using this
  · subst h; simp
  · exact key x h (by rw [abs_of_pos h] at hx; exact hx)

/-- For latitudes of at most a quarter radian the product of the cosines is at
least `9/10`. -/
theorem cos_mul_cos_lower (x y : ℝ) (hx : |x| ≤ 1 / 4) (hy : |y| ≤ 1 / 4) :
    9 / 10 ≤ Real.cos x * Real.cos y := by
  have hx2 : x ^ 2 ≤ 1 / 16 := by
    have := abs_le.mp hx
    nlinarith
  have hy2 : y ^ 2 ≤ 1 / 16 := by
    have := abs_le.mp hy
    nlinarith
  have h1 : 31 / 32 ≤ Real.cos x := by
    have := @Real.one_sub_sq_div_two_le_cos x
    linarith
  have h2 : 31 / 32 ≤ Real.cos y := by
    have := @Real.one_sub_sq_div_two_le_cos y
    linarith
  nlinarith

/-- The product of two cosines is at most 1. -/
theorem cos_mul_cos_le_one (x y : ℝ) : Real.cos x * Real.cos y ≤ 1 := by
  nlinarith [Real.cos_le_one x, Real.cos_le_one y, Real.neg_one_le_cos x, Real.neg_one_le_cos y]

/-- A lower bound on `a` gives a lower bound on the distance. -/
theorem getDistance_gt_of_lt_haversineA (p c : LatLng ℝ) (θ : ℝ) (h0 : 0 ≤ θ) (h1 : θ ≤ 1)
    (h : θ ^ 2 < haversineA p c) : 6371e3 * (2 * θ) < getDistance p c := by
  have ha := haversineA_mem_unit p c
  have hs : θ < Real.sqrt (haversineA p c) := (Real.lt_sqrt h0).mpr h
  have hsin : Real.sin θ < Real.sqrt (haversineA p c) := lt_of_le_of_lt (Real.sin_le h0) hs
  have hpi := Real.pi_gt_d2
  have hθ : θ ∈ Set.Icc (-(Real.pi / 2)) (Real.pi / 2) := ⟨by linarith, by linarith⟩
  have hy : Real.sqrt (haversineA p c) ∈ Set.Icc (-1 : ℝ) 1 :=
    ⟨by linarith [Real.sqrt_nonneg (haversineA p c)], Real.sqrt_le_one.mpr ha.2⟩
  have := (Real.lt_arcsin_iff_sin_lt hθ hy).mpr hsin
  rw [getDistance_eq_arcsin]
  have hR : (0 : ℝ) < 6371e3 := by norm_num
  nlinarith

/-- An upper bound on `a` gives an upper bound on the distance. -/
theorem getDistance_le_of_haversineA_le (p c : LatLng ℝ) (θ : ℝ) (h0 : 0 < θ) (h1 : θ ≤ 1)
    (h : haversineA p c ≤ (θ - θ ^ 3 / 4) ^ 2) : getDistance p c ≤ 6371e3 * (2 * θ) := by
  have ha := haversineA_mem_unit p c
  have hlow : 0 ≤ θ - θ ^ 3 / 4 := by nlinarith [sq_nonneg θ, mul_pos h0 h0]
  have hs : Real.sqrt (haversineA p c) ≤ θ - θ ^ 3 / 4 := (Real.sqrt_le_left hlow).mpr h
  have hsin : Real.sqrt (haversineA p c) ≤ Real.sin θ :=
    le_trans hs (le_of_lt (Real.sin_gt_sub_cube h0 h1))
  have hpi := Real.pi_gt_d2
  have hθ : θ ∈ Set.Icc (-(Real.pi / 2)) (Real.pi / 2) := ⟨by linarith, by linarith⟩
  have hy : Real.sqrt (haversineA p c) ∈ Set.Icc (-1 : ℝ) 1 :=
    ⟨by linarith [Real.sqrt_nonneg (haversineA p c)], Real.sqrt_le_one.mpr ha.2⟩
  have := (Real.arcsin_le_iff_le_sin hy hθ).mpr hsin
  rw [getDistance_eq_arcsin]
  have hR : (0 : ℝ) < 6371e3 := by norm_num
  nlinarith

/-- Lower bound on `a` from the coordinate differences in degrees, for
latitudes of at most 14 degrees and differences of at most one degree. -/
theorem haversineA_lower (p c : LatLng ℝ) (hp : |p.lat| ≤ 14) (hc : |c.lat| ≤ 14)
    (hlat : |c.lat - p.lat| ≤ 1) (hlng : |c.lng - p.lng| ≤ 1) :
    99 / 100 * (31415 / 3600000) ^ 2
        * ((c.lat - p.lat) ^ 2 + 9 / 10 * (c.lng - p.lng) ^ 2) ≤ haversineA p c := by
  have hpi1 : (3.1415 : ℝ) < Real.pi := Real.pi_gt_d4
  have hpi2 : Real.pi < (3.1416 : ℝ) := Real.pi_lt_d4
  have hpi0 : (0 : ℝ) < Real.pi := Real.pi_pos
  have hk : (31415 / 3600000 : ℝ) ^ 2 ≤ (Real.pi / 360) ^ 2 := by
    apply pow_le_pow_left₀ (by norm_num)
    linarith
  have small : ∀ d : ℝ, |d| ≤ 1 → |d * Real.pi / 180 / 2| ≤ 1 / 10 := by
    intro d hd
    have hd' := abs_le.mp hd
    exact abs_le.mpr ⟨by nlinarith, by nlinarith⟩
  have lat_small : ∀ l : ℝ, |l| ≤ 14 → |l * Real.pi / 180| ≤ 1 / 4 := by
    intro l hl
    have hl' := abs_le.mp hl
    exact abs_le.mpr ⟨by nlinarith, by nlinarith⟩
  have sq_low : ∀ d : ℝ, d ^ 2 * (31415 / 3600000) ^ 2 ≤ (d * Real.pi / 180 / 2) ^ 2 := by
    intro d
    have e : (d * Real.pi / 180 / 2) ^ 2 = d ^ 2 * (Real.pi / 360) ^ 2 := by ring
    rw [e]
    exact mul_le_mul_of_nonneg_left hk (sq_nonneg d)
  have hsu := sin_sq_lower _ (small _ hlat)
  have hsv := sin_sq_lower _ (small _ hlng)
  have hC := cos_mul_cos_lower _ _ (lat_small _ hp) (lat_small _ hc)
  have hu := sq_low (c.lat - p.lat)
  have hv := sq_low (c.lng - p.lng)
  have t1 : 99 / 100 * ((c.lat - p.lat) ^ 2 * (31415 / 3600000) ^ 2)
      ≤ Real.sin ((c.lat - p.lat) * Real.pi / 180 / 2) ^ 2 := by linarith
  have t2 : 99 / 100 * ((c.lng - p.lng) ^ 2 * (31415 / 3600000) ^ 2)
      ≤ Real.sin ((c.lng - p.lng) * Real.pi / 180 / 2) ^ 2 := by linarith
  have t2nn : (0 : ℝ) ≤ 99 / 100 * ((c.lng - p.lng) ^ 2 * (31415 / 3600000) ^ 2) := by positivity
  have t3 : 9 / 10 * (99 / 100 * ((c.lng - p.lng) ^ 2 * (31415 / 3600000) ^ 2))
      ≤ Real.cos (p.lat * Real.pi / 180) * Real.cos (c.lat * Real.pi / 180)
          * Real.sin ((c.lng - p.lng) * Real.pi / 180 / 2) ^ 2 :=
    mul_le_mul hC t2 t2nn (by linarith)
  simp only [haversineA]
  linarith

/-- Upper bound on `a` from the coordinate differences in degrees. -/
theorem haversineA_upper (p c : LatLng ℝ) :
    haversineA p c
      ≤ (31416 / 3600000) ^ 2 * ((c.lat - p.lat) ^ 2 + (c.lng - p.lng) ^ 2) := by
  have hpi2 : Real.pi < (3.1416 : ℝ) := Real.pi_lt_d4
  have hpi0 : (0 : ℝ) < Real.pi := Real.pi_pos
  have hk : (Real.pi / 360) ^ 2 ≤ (31416 / 3600000 : ℝ) ^ 2 := by
    apply pow_le_pow_left₀ (by positivity)
    linarith
  have sq_up : ∀ d : ℝ, (d * Real.pi / 180 / 2) ^ 2 ≤ d ^ 2 * (31416 / 3600000) ^ 2 := by
    intro d
    have e : (d * Real.pi / 180 / 2) ^ 2 = d ^ 2 * (Real.pi / 360) ^ 2 := by ring
    rw [e]
    exact mul_le_mul_of_nonneg_left hk (sq_nonneg d)
  have hsu := @Real.sin_sq_le_sq ((c.lat - p.lat) * Real.pi / 180 / 2)
  have hsv := @Real.sin_sq_le_sq ((c.lng - p.lng) * Real.pi / 180 / 2)
  have hu := sq_up (c.lat - p.lat)
  have hv := sq_up (c.lng - p.lng)
  have hC := cos_mul_cos_le_one (p.lat * Real.pi / 180) (c.lat * Real.pi / 180)
  have hnn := sq_nonneg (Real.sin ((c.lng - p.lng) * Real.pi / 180 / 2))
  have t3 : Real.cos (p.lat * Real.pi / 180) * Real.cos (c.lat * Real.pi / 180)
      * Real.sin ((c.lng - p.lng) * Real.pi / 180 / 2) ^ 2
      ≤ Real.sin ((c.lng - p.lng) * Real.pi / 180 / 2) ^ 2 := by
    nlinarith
  simp only [haversineA]
  linarith

/-- A distance is above `D` metres when a rational inequality on the coordinate
differences in degrees holds. -/
theorem getDistance_gt_of_rat (p c : LatLng ℚ) (D : ℚ) (hp : |p.lat| ≤ 14) (hc : |c.lat| ≤ 14)
    (hlat : |c.lat - p.lat| ≤ 1) (hlng : |c.lng - p.lng| ≤ 1)
    (hD0 : 0 ≤ D) (hD1 : D ≤ 12742000)
    (hnum : (D / 12742000) ^ 2
      < 99 / 100 * (31415 / 3600000) ^ 2
          * ((c.lat - p.lat) ^ 2 + 9 / 10 * (c.lng - p.lng) ^ 2)) :
    (D : ℝ) < getDistance p.toReal c.toReal := by
  have hpR : |(p.lat : ℝ)| ≤ 14 := by exact_mod_cast hp
  have hcR : |(c.lat : ℝ)| ≤ 14 := by exact_mod_cast hc
  have hlatR : |(c.lat : ℝ) - (p.lat : ℝ)| ≤ 1 := by exact_mod_cast hlat
  have hlngR : |(c.lng : ℝ) - (p.lng : ℝ)| ≤ 1 := by exact_mod_cast hlng
  have hnumR : ((D : ℝ) / 12742000) ^ 2
      < 99 / 100 * (31415 / 3600000) ^ 2
          * (((c.lat : ℝ) - (p.lat : ℝ)) ^ 2 + 9 / 10 * ((c.lng : ℝ) - (p.lng : ℝ)) ^ 2) := by
    have hcast : (((D / 12742000) ^ 2 : ℚ) : ℝ)
        < ((99 / 100 * (31415 / 3600000) ^ 2
            * ((c.lat - p.lat) ^ 2 + 9 / 10 * (c.lng - p.lng) ^ 2) : ℚ) : ℝ) :=
      Rat.cast_lt.mpr hnum
    push_cast at hcast
    exact hcast
  have hD0R : (0 : ℝ) ≤ (D : ℝ) := by exact_mod_cast hD0
  have hD1R : (D : ℝ) ≤ 12742000 := by exact_mod_cast hD1
  have hlow := haversineA_lower p.toReal c.toReal hpR hcR hlatR hlngR
  have h := getDistance_gt_of_lt_haversineA p.toReal c.toReal ((D : ℝ) / 12742000)
    (by positivity) (by rw [div_le_one (by norm_num)]; exact hD1R)
    (lt_of_lt_of_le hnumR hlow)
  have e : (6371e3 : ℝ) * (2 * ((D : ℝ) / 12742000)) = (D : ℝ) := by
    norm_num
    ring
  rw [e] at h
  exact h

/-- A distance is at most `D` metres when a rational inequality on the
coordinate differences in degrees holds. -/
theorem getDistance_le_of_rat (p c : LatLng ℚ) (D : ℚ) (hD0 : 0 < D) (hD1 : D ≤ 12742000)
    (hnum : (31416 / 3600000) ^ 2 * ((c.lat - p.lat) ^ 2 + (c.lng - p.lng) ^ 2)
      ≤ (D / 12742000 - (D / 12742000) ^ 3 / 4) ^ 2) :
    getDistance p.toReal c.toReal ≤ (D : ℝ) := by
  have hnumR : (31416 / 3600000 : ℝ) ^ 2
        * (((c.lat : ℝ) - (p.lat : ℝ)) ^ 2 + ((c.lng : ℝ) - (p.lng : ℝ)) ^ 2)
      ≤ ((D : ℝ) / 12742000 - ((D : ℝ) / 12742000) ^ 3 / 4) ^ 2 := by
    have hcast : (((31416 / 3600000) ^ 2 * ((c.lat - p.lat) ^ 2 + (c.lng - p.lng) ^ 2) : ℚ) : ℝ)
        ≤ (((D / 12742000 - (D / 12742000) ^ 3 / 4) ^ 2 : ℚ) : ℝ) :=
      Rat.cast_le.mpr hnum
    push_cast at hcast
    exact hcast
  have hD0R : (0 : ℝ) < (D : ℝ) := by exact_mod_cast hD0
  have hD1R : (D : ℝ) ≤ 12742000 := by exact_mod_cast hD1
  have hup := haversineA_upper p.toReal c.toReal
  have h := getDistance_le_of_haversineA_le p.toReal c.toReal ((D : ℝ) / 12742000)
    (by positivity) (by rw [div_le_one (by norm_num)]; exact hD1R)
    (le_trans hup hnumR)
  have e : (6371e3 : ℝ) * (2 * ((D : ℝ) / 12742000)) = (D : ℝ) := by
    norm_num
    ring
  rw [e] at h
  exact h

/-! ## The built-in walk -/

/-- Distances of the first six path points to the zone centre, against the two
radii. -/
theorem walk_distances (clock : Nat → Nat) :
    1000 < (walkTick clock 0).distance ∧ 1000 < (walkTick clock 1).distance
      ∧ 400 < (walkTick clock 2).distance ∧ (walkTick clock 2).distance ≤ 1000
      ∧ 400 < (walkTick clock 3).distance ∧ 400 < (walkTick clock 4).distance
      ∧ (walkTick clock 5).distance ≤ 400 := by
  have e1000 : ((1000 : ℚ) : ℝ) = 1000 := by norm_num
  have e400 : ((400 : ℚ) : ℝ) = 400 := by norm_num
  have h0 := getDistance_gt_of_rat ⟨13.1850, 80.1650⟩ riskZone.center 1000
    (by norm_num [abs_le]) (by norm_num [abs_le, riskZone]) (by norm_num [abs_le, riskZone])
    (by norm_num [abs_le, riskZone]) (by norm_num) (by norm_num) (by norm_num [riskZone])
  have h1 := getDistance_gt_of_rat ⟨13.1840, 80.1665⟩ riskZone.center 1000
    (by norm_num [abs_le]) (by norm_num [abs_le, riskZone]) (by norm_num [abs_le, riskZone])
    (by norm_num [abs_le, riskZone]) (by norm_num) (by norm_num) (by norm_num [riskZone])
  have h2 := getDistance_gt_of_rat ⟨13.1830, 80.1680⟩ riskZone.center 400
    (by norm_num [abs_le]) (by norm_num [abs_le, riskZone]) (by norm_num [abs_le, riskZone])
    (by norm_num [abs_le, riskZone]) (by norm_num) (by norm_num) (by norm_num [riskZone])
  have h2u := getDistance_le_of_rat ⟨13.1830, 80.1680⟩ riskZone.center 1000
    (by norm_num) (by norm_num) (by norm_num [riskZone])
  have h3 := getDistance_gt_of_rat ⟨13.1820, 80.1695⟩ riskZone.center 400
    (by norm_num [abs_le]) (by norm_num [abs_le, riskZone]) (by norm_num [abs_le, riskZone])
    (by norm_num [abs_le, riskZone]) (by norm_num) (by norm_num) (by norm_num [riskZone])
  have h4 := getDistance_gt_of_rat ⟨13.1810, 80.1710⟩ riskZone.center 400
    (by norm_num [abs_le]) (by norm_num [abs_le, riskZone]) (by norm_num [abs_le, riskZone])
    (by norm_num [abs_le, riskZone]) (by norm_num) (by norm_num) (by norm_num [riskZone])
  have h5u := getDistance_le_of_rat ⟨13.1800, 80.1725⟩ riskZone.center 400
    (by norm_num) (by norm_num) (by norm_num [riskZone])
  rw [e1000] at h0 h1 h2u
  rw [e400] at h2 h3 h4 h5u
  exact ⟨h0, h1, h2, h2u, h3, h4, h5u⟩

theorem pathIndexAfter_val (n : Nat) : (pathIndexAfter n).val = n % 10 := by
  induction n with
  | zero => rfl
  | succ n ih =>
    simp only [pathIndexAfter, ih]
    omega

theorem riskZone_toReal_radii :
    riskZone.toReal.warningRadius = 1000 ∧ riskZone.toReal.criticalRadius = 400 := by
  constructor <;> simp [RiskZone.toReal, riskZone]

/-- After the sixth execution both flags are set, for good. -/
theorem walkState_flags_set (clock : Nat → Nat) (n : Nat) (hn : 6 ≤ n)
    (h6 : (walkState clock 6).triggeredWarning = true
      ∧ (walkState clock 6).triggeredCritical = true) :
    (walkState clock n).triggeredWarning = true
      ∧ (walkState clock n).triggeredCritical = true := by
  induction n, hn using Nat.le_induction with
  | base => exact h6
  | succ m _ ih =>
    exact ⟨simulationEffect_keeps_warning _ _ _ ih.1,
      simulationEffect_keeps_critical _ _ _ ih.2⟩

/-- C23: over the built-in path from index 0 with fresh flags, executions 0 and
1 create nothing, execution 2 creates the warning alert, executions 3 and 4
create nothing, execution 5 creates the critical alert, and no later execution,
in this or any later cycle of the path, creates anything; the `n`-th execution
is at path index `n % 10`. -/
theorem builtin_walk_alerts (clock : Nat → Nat) :
    walkEmitted clock 0 = [] ∧ walkEmitted clock 1 = []
      ∧ walkEmitted clock 2 = [warningAlert riskZone.toReal (walkTick clock 2)]
      ∧ walkEmitted clock 3 = [] ∧ walkEmitted clock 4 = []
      ∧ walkEmitted clock 5 = [providerCriticalAlert riskZone.toReal (walkTick clock 5)]
      ∧ (∀ n : Nat, 6 ≤ n → walkEmitted clock n = [])
      ∧ (∀ n : Nat, (pathIndexAfter n).val = n % 10)
      ∧ (warningAlert riskZone.toReal (walkTick clock 2)).type = "warning"
      ∧ (providerCriticalAlert riskZone.toReal (walkTick clock 5)).type = "critical" := by
  obtain ⟨d0, d1, d2, d2u, d3, d4, d5u⟩ := walk_distances clock
  obtain ⟨hW, hC⟩ := riskZone_toReal_radii
  -- execution 0
  have s0w : (walkState clock 0).triggeredWarning = false := rfl
  have s0c : (walkState clock 0).triggeredCritical = false := rfl
  have e0 := simulationEffect_silent riskZone.toReal (walkTick clock 0) (walkState clock 0)
    (fun h => by rw [hC] at h; linarith [h.1]) (fun h => by rw [hW] at h; linarith [h.1])
  have s1w : (walkState clock 1).triggeredWarning = false := e0.2.1.trans s0w
  have s1c : (walkState clock 1).triggeredCritical = false := e0.2.2.1.trans s0c
  -- execution 1
  have e1 := simulationEffect_silent riskZone.toReal (walkTick clock 1) (walkState clock 1)
    (fun h => by rw [hC] at h; linarith [h.1]) (fun h => by rw [hW] at h; linarith [h.1])
  have s2w : (walkState clock 2).triggeredWarning = false := e1.2.1.trans s1w
  have s2c : (walkState clock 2).triggeredCritical = false := e1.2.2.1.trans s1c
  -- execution 2: warning
  have e2 := simulationEffect_warning riskZone.toReal (walkTick clock 2) (walkState clock 2)
    (fun h => by rw [hC] at h; linarith [h.1]) (by rw [hW]; exact d2u) s2w
  have s3w : (walkState clock 3).triggeredWarning = true := e2.2.1
  have s3c : (walkState clock 3).triggeredCritical = false := e2.2.2.trans s2c
  -- execution 3
  have e3 := simulationEffect_silent riskZone.toReal (walkTick clock 3) (walkState clock 3)
    (fun h => by rw [hC] at h; linarith [h.1]) (fun h => by rw [s3w] at h; exact absurd h.2 (by simp))
  have s4w : (walkState clock 4).triggeredWarning = true := e3.2.1.trans s3w
  have s4c : (walkState clock 4).triggeredCritical = false := e3.2.2.1.trans s3c
  -- execution 4
  have e4 := simulationEffect_silent riskZone.toReal (walkTick clock 4) (walkState clock 4)
    (fun h => by rw [hC] at h; linarith [h.1]) (fun h => by rw [s4w] at h; exact absurd h.2 (by simp))
  have s5w : (walkState clock 5).triggeredWarning = true := e4.2.1.trans s4w
  have s5c : (walkState clock 5).triggeredCritical = false := e4.2.2.1.trans s4c
  -- execution 5: critical
  have e5 := simulationEffect_critical riskZone.toReal (walkTick clock 5) (walkState clock 5)
    (by rw [hC]; exact d5u) s5c
  have s6w : (walkState clock 6).triggeredWarning = true := e5.2.2.trans s5w
  have s6c : (walkState clock 6).triggeredCritical = true := e5.2.1
  refine ⟨e0.1, e1.1, e2.1, e3.1, e4.1, e5.1, fun n hn => ?_, pathIndexAfter_val, rfl, rfl⟩
  have hf := walkState_flags_set clock n hn ⟨s6w, s6c⟩
  exact (simulationEffect_silent riskZone.toReal (walkTick clock n) (walkState clock n)
    (fun h => by rw [hf.2] at h; exact absurd h.2 (by simp))
    (fun h => by rw [hf.1] at h; exact absurd h.2 (by simp))).1

end Sih
